import Mathlib

/-!
Verification development for the Minecraft bot action-execution server
(`src/server.js`).  The JavaScript source is shallowly embedded: pure
computations become Lean functions, the stateful operation loops become
explicit state-passing functions driven by an environment that resolves
each world-interface primitive's outcome, and machine floats (health,
distances) are modelled as rationals.
-/

namespace MCBot

/-- Character-list version of JavaScript `String.prototype.startsWith`. -/
def headMatch : List Char → List Char → Bool
  | [], _ => true
  | _ :: _, [] => false
  | a :: as, b :: bs => a == b && headMatch as bs

/-- Character-list version of JavaScript `String.prototype.includes`:
`hasSubList pat l` is true when `pat` occurs contiguously inside `l`. -/
def hasSubList (pat : List Char) : List Char → Bool
  | [] => headMatch pat []
  | b :: bs => headMatch pat (b :: bs) || hasSubList pat bs

/-- JavaScript `s.includes(pat)`. -/
def strIncludes (s pat : String) : Bool := hasSubList pat.toList s.toList

/-- JavaScript `s.startsWith(pat)`. -/
def strStarts (s pat : String) : Bool := headMatch pat.toList s.toList

-- ============================================================
-- GET /threat_assessment  (src/server.js lines 4158-4312)
-- ============================================================

namespace Threat

/-- One inventory item (name and stack count). -/
structure InvItem where
  name : String
  count : Nat
deriving DecidableEq

/-- One nearby entity as seen by `/threat_assessment` (type name and
distance, already rounded to 0.1 by the source). -/
structure Mob where
  type : String
  distance : ℚ
deriving DecidableEq

/-- The inputs the endpoint reads from the world: inventory items, the four
armor slots, current health, and the entity list. -/
structure World where
  items : List InvItem
  armorSlots : List (Option String)
  health : ℚ
  entities : List Mob
deriving DecidableEq

/-- `weaponTiers` object lookup (lines 4169-4172). -/
def weaponTiers (n : String) : Option ℚ :=
  if n = "diamond_sword" then some 7 else if n = "iron_sword" then some 6
  else if n = "stone_sword" then some 5 else if n = "wooden_sword" then some 4
  else if n = "diamond_axe" then some 6 else if n = "iron_axe" then some 5
  else if n = "stone_axe" then some 4 else if n = "wooden_axe" then some 3
  else none

/-- `armorValues` object lookup (lines 4173-4178). -/
def armorValues (n : String) : Option ℚ :=
  if n = "diamond_helmet" then some 3 else if n = "diamond_chestplate" then some 8
  else if n = "diamond_leggings" then some 6 else if n = "diamond_boots" then some 3
  else if n = "iron_helmet" then some 2 else if n = "iron_chestplate" then some 6
  else if n = "iron_leggings" then some 5 else if n = "iron_boots" then some 2
  else if n = "chainmail_helmet" then some 2 else if n = "chainmail_chestplate" then some 5
  else if n = "chainmail_leggings" then some 4 else if n = "chainmail_boots" then some 1
  else if n = "leather_helmet" then some 1 else if n = "leather_chestplate" then some 3
  else if n = "leather_leggings" then some 2 else if n = "leather_boots" then some 1
  else none

/-- `foods` list (lines 4203-4206). -/
def foods : List String :=
  ["cooked_beef", "cooked_porkchop", "cooked_chicken", "cooked_mutton",
   "bread", "golden_apple", "apple", "melon_slice", "baked_potato",
   "beef", "porkchop", "chicken", "mutton", "potato", "carrot",
   "sweet_berries", "dried_kelp"]

/-- `hostileMobs` danger lookup (lines 4213-4228); only the danger number is
used by the decision logic. -/
def hostileMobs (n : String) : Option ℚ :=
  if n = "zombie" then some 2 else if n = "husk" then some 2
  else if n = "skeleton" then some 3 else if n = "stray" then some 3
  else if n = "spider" then some 2 else if n = "creeper" then some 5
  else if n = "enderman" then some 4 else if n = "witch" then some 4
  else if n = "drowned" then some 2 else if n = "phantom" then some 3
  else if n = "pillager" then some 3 else if n = "vindicator" then some 5
  else if n = "ravager" then some 6 else if n = "warden" then some 10
  else none

/-- Best-weapon scan (lines 4180-4188): keep the strictly larger tier. -/
def weaponPower (items : List InvItem) : ℚ :=
  items.foldl (fun w it =>
    match weaponTiers it.name with
    | some v => if w < v then v else w
    | none => w) 0

/-- Armor-slot sum (lines 4190-4197). -/
def totalArmor (slots : List (Option String)) : ℚ :=
  slots.foldl (fun a s =>
    match s with
    | some n => match armorValues n with
                | some v => a + v
                | none => a
    | none => a) 0

/-- Food-item count (lines 4207-4210). -/
def foodCount (items : List InvItem) : Nat :=
  items.foldl (fun c it => if it.name ∈ foods then c + it.count else c) 0

/-- Entities within range 20 whose type is a known hostile (lines 4230-4238;
the sort by distance does not affect any quantity below). -/
def threats (w : World) : List Mob :=
  (w.entities.filter (fun e => e.distance < 20)).filter
    (fun e => (hostileMobs e.type).isSome)

/-- Danger of one threat: `danger * (1 + max(0, 10 - distance)/10)`
(line 4242). -/
def dangerScaled (t : Mob) : ℚ :=
  (match hostileMobs t.type with
   | some d => d
   | none => 0) * (1 + max 0 (10 - t.distance) / 10)

/-- `totalDanger` accumulator (lines 4239-4245). -/
def totalDanger (w : World) : ℚ :=
  ((threats w).map dangerScaled).sum

/-- `playerPower = weaponPower + totalArmor*0.5 + health*0.3 + (food?2:0)`
(line 4249). -/
def playerPower (w : World) : ℚ :=
  weaponPower w.items + totalArmor w.armorSlots * (1/2) + w.health * (3/10)
    + (if 0 < foodCount w.items then 2 else 0)

/-- The five possible recommendations. -/
inductive Rec
  | safe | flee | avoid | fight | fightCareful
deriving DecidableEq

/-- The decision chain exactly as the source orders it (lines 4255-4282):
no threats, danger-vs-power flee, creeper-proximity flee, warden flee,
low-health flee, no-weapon avoid, strong fight, slight fight-careful,
otherwise avoid. -/
def recommendation (w : World) : Rec :=
  if threats w = [] then .safe
  else if 8 ≤ totalDanger w ∧ playerPower w < 5 then .flee
  else if (threats w).any (fun t => t.type == "creeper" && decide (t.distance < 8)) then .flee
  else if (threats w).any (fun t => t.type == "warden") then .flee
  else if w.health ≤ 6 ∧ foodCount w.items = 0 then .flee
  else if weaponPower w.items = 0 ∧ 3 < totalDanger w then .avoid
  else if totalDanger w * (3/2) < playerPower w then .fight
  else if totalDanger w < playerPower w then .fightCareful
  else .avoid

/-- The decision table exactly as the claim words it (no creeper rule):
warden, then danger-vs-power, then low-health, then no-weapon, then the
power comparisons. -/
def claimedRec (w : World) : Rec :=
  if (threats w).any (fun t => t.type == "warden") then .flee
  else if 8 ≤ totalDanger w ∧ playerPower w < 5 then .flee
  else if w.health ≤ 6 ∧ foodCount w.items = 0 then .flee
  else if weaponPower w.items = 0 ∧ 3 < totalDanger w then .avoid
  else if totalDanger w * (3/2) < playerPower w then .fight
  else if totalDanger w < playerPower w then .fightCareful
  else .avoid

/-- The claim's table amended by the single rule the counterexample forces:
a creeper within distance 8 also recommends flee (inserted into the flee
group; the relative order of the three flee rules cannot change the
output). -/
def amendedRec (w : World) : Rec :=
  if (threats w).any (fun t => t.type == "warden") then .flee
  else if 8 ≤ totalDanger w ∧ playerPower w < 5 then .flee
  else if (threats w).any (fun t => t.type == "creeper" && decide (t.distance < 8)) then .flee
  else if w.health ≤ 6 ∧ foodCount w.items = 0 then .flee
  else if weaponPower w.items = 0 ∧ 3 < totalDanger w then .avoid
  else if totalDanger w * (3/2) < playerPower w then .fight
  else if totalDanger w < playerPower w then .fightCareful
  else .avoid

/-- Concrete world refuting the claimed table: a creeper at distance 7 and
a well-geared player. -/
def cexWorld : World :=
  { items := [⟨"diamond_sword", 1⟩, ⟨"bread", 3⟩]
  , armorSlots := [none, none, none, none]
  , health := 20
  , entities := [⟨"creeper", 7⟩] }

end Threat

-- ============================================================
-- Tool & equipment policy
-- autoEquipBestTool (src/server.js lines 3881-3927) and the
-- POST /action/mine tool-requirement checks (lines 4525-4568)
-- ============================================================

namespace Tools

/-- `pickaxeBlocks` keyword list (lines 3884-3888). -/
def pickaxeBlocks : List String :=
  ["stone", "cobblestone", "iron_ore", "coal_ore", "gold_ore",
   "diamond_ore", "copper_ore", "redstone_ore", "lapis_ore", "emerald_ore",
   "deepslate", "andesite", "diorite", "granite", "netherrack", "obsidian",
   "nether_quartz_ore", "nether_gold_ore", "sandstone", "blackstone", "basalt",
   "end_stone", "terracotta", "bricks", "prismarine", "concrete"]

/-- `axeBlocks` keyword list (lines 3889-3890). -/
def axeBlocks : List String :=
  ["log", "wood", "planks", "fence", "door", "bookshelf",
   "crafting_table", "chest", "barrel", "sign", "bamboo", "mushroom_block"]

/-- `shovelBlocks` keyword list (lines 3891-3892). -/
def shovelBlocks : List String :=
  ["dirt", "grass_block", "sand", "gravel", "clay",
   "soul_sand", "soul_soil", "snow", "mud", "mycelium", "podzol", "farmland"]

/-- Keyword-membership classification of a material name into a tool class
(lines 3894-3909); the default class is pickaxe. -/
def toolTypeFor (blockName : String) : String :=
  if pickaxeBlocks.any (fun kw => strIncludes blockName kw) then "pickaxe"
  else if axeBlocks.any (fun kw => strIncludes blockName kw) then "axe"
  else if shovelBlocks.any (fun kw => strIncludes blockName kw) then "shovel"
  else "pickaxe"

/-- `tiers` ordering, highest first (line 3912). -/
def tiers : List String :=
  ["netherite", "diamond", "iron", "stone", "wooden", "golden"]

/-- `autoEquipBestTool` (lines 3881-3927): the first tier whose
`tier_toolType` item is in the inventory, scanning highest to lowest;
`none` when the class is absent.  An empty block name defaults to
"stone" (JS falsy check, line 3882). -/
def autoEquipBestTool (blockName : String) (inv : List String) : Option String :=
  let bn := if blockName = "" then "stone" else blockName
  let tt := toolTypeFor bn
  (tiers.map (fun tr => tr ++ "_" ++ tt)).find? (fun n => inv.contains n)

/-- The mine endpoint's equipped-tool resolution including the held-item
fallback (lines 4530-4540): when `autoEquipBestTool` finds nothing but the
bot already holds an item whose name contains pickaxe/axe/shovel, that held
item is accepted. -/
def mineEquipped (bt : String) (inv : List String) (held : Option String) : Option String :=
  match autoEquipBestTool bt inv with
  | some tl => some tl
  | none =>
    match held with
    | some h =>
      if strIncludes h "pickaxe" || strIncludes h "axe" || strIncludes h "shovel"
      then some h else none
    | none => none

/-- `requiresPickaxe` list (lines 4543-4547). -/
def requiresPickaxe : List String :=
  ["iron_ore", "coal_ore", "gold_ore", "diamond_ore", "copper_ore",
   "redstone_ore", "lapis_ore", "emerald_ore", "nether_quartz_ore", "nether_gold_ore",
   "obsidian", "deepslate_iron_ore", "deepslate_coal_ore", "deepslate_gold_ore",
   "deepslate_diamond_ore", "deepslate_copper_ore", "deepslate_redstone_ore",
   "deepslate_lapis_ore", "deepslate_emerald_ore"]

/-- `requiresTool = ['stone','cobblestone','deepslate', ...requiresPickaxe]`
(line 4548). -/
def requiresTool : List String :=
  ["stone", "cobblestone", "deepslate"] ++ requiresPickaxe

/-- `needsIronPlus` list (lines 4561-4562). -/
def ironPlusList : List String :=
  ["diamond_ore", "deepslate_diamond_ore", "gold_ore", "deepslate_gold_ore",
   "emerald_ore", "deepslate_emerald_ore", "redstone_ore", "deepslate_redstone_ore"]

/-- `needsTool` (line 4550). -/
def needsToolB (bt : String) : Bool := requiresTool.any (fun kw => strIncludes bt kw)

/-- `needsStonePlus` (line 4557). -/
def needsStonePlusB (bt : String) : Bool := requiresPickaxe.any (fun kw => strIncludes bt kw)

/-- `needsIronPlus` membership test (line 4563). -/
def needsIronPlusB (bt : String) : Bool := ironPlusList.any (fun kw => strIncludes bt kw)

/-- `isWood` (line 4568). -/
def isWoodB (bt : String) : Bool := ["log", "wood"].any (fun kw => strIncludes bt kw)

/-- Outcome of the pre-loop tool-requirement checks (lines 4550-4566):
three distinct user-facing errors, or proceed carrying the resolved tool. -/
inductive MineCheck
  | noTool
  | needStone
  | needIron
  | proceed (tool : Option String)
deriving DecidableEq

/-- The pre-loop tool-requirement checks in source order (lines 4550-4566):
no-tool fail-fast, then the wooden-tier check for stone-or-better
materials, then the wooden/stone-tier check for iron-or-better materials. -/
def mineToolCheck (bt : String) (inv : List String) (held : Option String) : MineCheck :=
  let e := mineEquipped bt inv held
  if needsToolB bt && e.isNone then .noTool
  else if needsStonePlusB bt &&
      (match e with | some tl => strStarts tl "wooden_" | none => false) then .needStone
  else if needsIronPlusB bt &&
      (match e with
       | some tl => strStarts tl "wooden_" || strStarts tl "stone_"
       | none => false) then .needIron
  else .proceed e

end Tools

-- ============================================================
-- POST /action/mine  (src/server.js lines 4522-4859)
-- ============================================================

namespace Mine

/-- Block position.  The source keys `failedPositions` by the string
"x,y,z", which is injective on integer coordinates, so the JS `Set` of
strings embeds as a finite set of positions. -/
structure Pos where
  x : Int
  y : Int
  z : Int
deriving DecidableEq

/-- The primitive calls the claims track: a `ensureToolHeld` call and a
`bot.dig` call on the current target or a cluster block. -/
inductive Ev
  | ensure
  | dig
deriving DecidableEq

/-- World-side outcomes for one cluster-sweep entry (lines 4793-4826). -/
structure ClusterEnv where
  /-- an external abort request arrived before this entry's flag check -/
  abortSet : Bool
  /-- `bot.heldItem` as seen by `ensureToolHeld` -/
  held : Option String
  /-- the selected tool is still somewhere in the inventory -/
  toolInInv : Bool
  /-- result of `autoEquipBestTool` when the tool is gone (line 4579) -/
  retool : Option String
  /-- `bot.equip` succeeds (it can throw; retried once) -/
  equipOk : Bool
  /-- block still solid, not already mined by an earlier entry (line 4802) -/
  stillThere : Bool
  /-- within REACH, possibly after the goto attempt (lines 4805-4816) -/
  within : Bool
  /-- `bot.dig` succeeds (line 4821) -/
  digOk : Bool

/-- World-side outcomes for one outer mining iteration (lines 4652-4837). -/
structure IterEnv where
  /-- an external abort request arrived before this iteration's flag check -/
  abortSet : Bool
  /-- `bot.findBlocks` result (line 4669) -/
  found : List Pos
  /-- `bot.blockAt(pos)` exists and is not air (line 4678) -/
  solid : Pos → Bool
  /-- the approach attempts ended within REACH (lines 4713-4737) -/
  reached : Bool
  /-- `bot.heldItem` as seen by `ensureToolHeld` (line 4573) -/
  held : Option String
  /-- the selected tool is still somewhere in the inventory (line 4576) -/
  toolInInv : Bool
  /-- result of `autoEquipBestTool` when the tool is gone (line 4579) -/
  retool : Option String
  /-- `bot.equip` succeeds -/
  equipOk : Bool
  /-- step-5 re-check: target block still solid (lines 4756-4758) -/
  targetStill : Bool
  /-- `bot.dig` on the target succeeds (line 4761) -/
  digOk : Bool
  /-- same-material blocks scanned within CLUSTER_RADIUS (lines 4775-4789),
  before the failed-positions filter -/
  cluster : List Pos
  /-- outcomes for the cluster entries -/
  cstep : Nat → ClusterEnv

/-- Mutable state of one mining operation: `mined`, `failedPositions`,
`equippedTool`, and the process-wide abort flag. -/
structure St where
  mined : Nat
  failed : Finset Pos
  tool : Option String
  abortFlag : Bool
deriving DecidableEq

/-- Why the main loop stopped. -/
inductive Reason
  | aborted
  | notFound
  | failCap
  | toolBroke
  | completed
  | fuelOut
deriving DecidableEq

/-- `MAX_FAILS` (line 4651). -/
def MAX_FAILS : Nat := 10

/-- Target selection (lines 4659-4682): the first found position that is
not blacklisted and whose block is still solid. -/
def selectTarget (e : IterEnv) (failed : Finset Pos) : Option Pos :=
  e.found.find? (fun p => decide (p ∉ failed) && e.solid p)

/-- `ensureToolHeld` (lines 4571-4598), returning the updated
`equippedTool` and the held item after the call.  When nothing is selected
it does nothing; when the held item already matches it does nothing; when
the tool is still in the inventory it re-equips (and waits 150ms, not
modelled); when the tool is gone it falls back to `autoEquipBestTool`. -/
def ensureToolHeldRun (tool held : Option String) (toolInInv : Bool)
    (retool : Option String) (equipOk : Bool) : Option String × Option String :=
  match tool with
  | none => (none, held)
  | some tl =>
    if held = some tl then (some tl, held)
    else if toolInInv then (some tl, if equipOk then some tl else held)
    else (retool, match retool with | some r => some r | none => held)

/-- The cluster queue (lines 4775-4789): scanned same-material neighbours
minus the blacklisted positions. -/
def clusterQueue (cluster : List Pos) (failed : Finset Pos) : List Pos :=
  cluster.filter (fun q => decide (q ∉ failed))

/-- The cluster-sweep loop (lines 4793-4826).  Per entry: stop when the
requested count is reached, break on the abort flag (observed but not
cleared here), re-run `ensureToolHeld`, stop when the tool broke and the
material requires one, skip already-mined or unreachable entries, dig. -/
def clusterRun (cenv : Nat → ClusterEnv) (M : Nat) (needsTool : Bool) :
    List Pos → Nat → St → St × List Ev
  | [], _, st => (st, [])
  | _ :: rest, j, st =>
    if M ≤ st.mined then (st, [])
    else
      let c := cenv j
      let st1 : St := { st with abortFlag := st.abortFlag || c.abortSet }
      if st1.abortFlag then (st1, [])
      else
        let tl := (ensureToolHeldRun st1.tool c.held c.toolInInv c.retool c.equipOk).1
        let st2 : St := { st1 with tool := tl }
        if st2.tool = none ∧ needsTool then (st2, [.ensure])
        else if ¬ c.stillThere then
          let r := clusterRun cenv M needsTool rest (j + 1) st2
          (r.1, .ensure :: r.2)
        else if ¬ c.within then
          let r := clusterRun cenv M needsTool rest (j + 1) st2
          (r.1, .ensure :: r.2)
        else
          let st3 : St :=
            { st2 with mined := if c.digOk then st2.mined + 1 else st2.mined }
          let r := clusterRun cenv M needsTool rest (j + 1) st3
          (r.1, .ensure :: .dig :: r.2)

/-- Result of one outer iteration: either the loop ends (with a reason and
the events of this iteration), or it continues at the given `i` with the
updated state. -/
inductive StepRes
  | stop (st : St) (r : Reason) (evs : List Ev)
  | next (i : Nat) (st : St) (evs : List Ev)
deriving DecidableEq

/-- One outer iteration of the mining loop (lines 4652-4837): the `for`
guard `i < mineCount`, the MAX_FAILS cap, the abort observe-clear-return,
target search, approach (on failure: blacklist, `i--`, `continue`),
`ensureToolHeld`, the broke-tool stop, the target dig, and the cluster
sweep. -/
def mineStep (e : IterEnv) (M : Nat) (needsTool isWood : Bool)
    (i : Nat) (st : St) : StepRes :=
  if M ≤ i then .stop st .completed []
  else if MAX_FAILS ≤ st.failed.card then .stop st .failCap []
  else
    let st1 : St := { st with abortFlag := st.abortFlag || e.abortSet }
    if st1.abortFlag then .stop { st1 with abortFlag := false } .aborted []
    else
      match selectTarget e st1.failed with
      | none => .stop st1 .notFound []
      | some p =>
        if ¬ e.reached then
          .next i { st1 with failed := insert p st1.failed } []
        else
          let tl := (ensureToolHeldRun st1.tool e.held e.toolInInv e.retool e.equipOk).1
          let st2 : St := { st1 with tool := tl }
          if st2.tool = none ∧ needsTool then .stop st2 .toolBroke [.ensure]
          else
            let dug := e.targetStill
            let st3 : St :=
              if dug then
                { st2 with mined := if e.digOk then st2.mined + 1 else st2.mined }
              else st2
            let cl :=
              if ¬ isWood ∧ 0 < st3.mined then
                clusterRun e.cstep M needsTool (clusterQueue e.cluster st3.failed) 0 st3
              else (st3, [])
            .next (i + 1) cl.1 (.ensure :: ((if dug then [.dig] else []) ++ cl.2))

/-- The main mining loop (lines 4649-4837): iterate `mineStep`, bounded by
fuel (the JS loop's own bound is `mineCount + MAX_FAILS` iterations, since
every iteration either consumes one `i` or strictly grows
`failedPositions`). -/
def mineLoop (env : Nat → IterEnv) (M : Nat) (needsTool isWood : Bool) :
    Nat → Nat → Nat → St → St × Reason × List Ev
  | 0, _, _, st => (st, .fuelOut, [])
  | fuel + 1, t, i, st =>
    match mineStep (env t) M needsTool isWood i st with
    | .stop st' r evs => (st', r, evs)
    | .next i' st' evs =>
      let r := mineLoop env M needsTool isWood fuel (t + 1) i' st'
      (r.1, r.2.1, evs ++ r.2.2)

/-- The HTTP response shape the claims need: the success flag and the
mined count the message reports. -/
structure Resp where
  success : Bool
  mined : Nat
deriving DecidableEq

/-- Maps a finished loop to the response (lines 4656, 4683-4691,
4844-4849): the abort branch reports `success:false` with the partial
count; every path that falls out of the loop reports success iff at least
one block was mined. -/
def mineResponse : St × Reason × List Ev → Resp
  | (st, r, _) =>
    match r with
    | .aborted => ⟨false, st.mined⟩
    | _ => if st.mined = 0 then ⟨false, 0⟩ else ⟨true, st.mined⟩

/-- Overall endpoint outcome: one of the three pre-loop errors, or a run. -/
inductive MineResult
  | errNoTool
  | errNeedStone
  | errNeedIron
  | ran (st : St) (r : Reason)
deriving DecidableEq

/-- POST /action/mine (lines 4522-4859): `mineCount = count || 1`, tool
resolution and the three fail-fast checks, then the main loop starting
from zero mined, an empty blacklist and the middleware-cleared abort
flag. -/
def mineEndpoint (bt : String) (count : Nat) (inv : List String)
    (held : Option String) (env : Nat → IterEnv) (fuel : Nat) :
    MineResult × List Ev :=
  let M := if count = 0 then 1 else count
  match Tools.mineToolCheck bt inv held with
  | .noTool => (.errNoTool, [])
  | .needStone => (.errNeedStone, [])
  | .needIron => (.errNeedIron, [])
  | .proceed tool =>
    let r :=
      mineLoop env M (Tools.needsToolB bt) (Tools.isWoodB bt) fuel 0 0
        ⟨0, ∅, tool, false⟩
    (.ran r.1 r.2.1, r.2.2)

/-- `guardedFrom b evs`: every dig event in `evs` is immediately preceded
by an `ensureToolHeld` event; `b` tells whether the event just before
`evs` was an `ensure`. -/
def guardedFrom : Bool → List Ev → Bool
  | _, [] => true
  | _, .ensure :: l => guardedFrom true l
  | b, .dig :: l => b && guardedFrom false l

/-- `guarded evs` holds when every dig event is immediately preceded by an
`ensureToolHeld` event. -/
def guarded (l : List Ev) : Bool := guardedFrom false l

/-- Traces built from iteration chunks: an `ensure` possibly followed by
one `dig`.  Both loops only ever emit such chunks. -/
inductive Chunks : List Ev → Prop
  | nil : Chunks []
  | ens {l : List Ev} : Chunks l → Chunks (.ensure :: l)
  | ensdig {l : List Ev} : Chunks l → Chunks (.ensure :: .dig :: l)

end Mine

-- ============================================================
-- Shared lava helpers (src/server.js lines 3812-3851)
-- ============================================================

namespace Lava

/-- `tryWaterBucketOnLava` (lines 3827-3851): `false` when no water bucket
is in the inventory, otherwise the outcome of the equip-activate-recollect
attempt (which can throw, giving `false`). -/
def tryWaterBucketOnLava (hasBucket : Bool) (activateOk : Bool) : Bool :=
  hasBucket && activateOk

end Lava

-- ============================================================
-- POST /action/dig_down  (src/server.js lines 5852-5969)
-- ============================================================

namespace DigDown

/-- World-side outcomes for one staircase step.  `scanK`/`nOkK` are the
`scanForLava(target, 2)` result and the neutralization outcome for the
three dig targets (forward, forward-up, below); `bK`/`dK` are the
solidity check and the dig success for the same blocks; `movedToY` is the
floored y-coordinate actually observed after `tunnelMove`; `lavaBelow` is
the post-move safety check (lines 5942-5951). -/
structure IterEnv where
  abortSet : Bool
  scan1 : List Mine.Pos
  scan2 : List Mine.Pos
  scan3 : List Mine.Pos
  nOk1 : Bool
  nOk2 : Bool
  nOk3 : Bool
  b1 : Bool
  b2 : Bool
  b3 : Bool
  d1 : Bool
  d2 : Bool
  d3 : Bool
  movedToY : Int
  lavaBelow : Bool

/-- The preemptive lava scan over the three dig targets (lines 5901-5914):
lava near one of them with failed (or impossible) neutralization makes the
step hazardous.  The source breaks at the first failure; the resulting
flag is the same. -/
def lavaAhead (hasBucket : Bool) (e : IterEnv) : Bool :=
  (!e.scan1.isEmpty && !(Lava.tryWaterBucketOnLava hasBucket e.nOk1)) ||
  (!e.scan2.isEmpty && !(Lava.tryWaterBucketOnLava hasBucket e.nOk2)) ||
  (!e.scan3.isEmpty && !(Lava.tryWaterBucketOnLava hasBucket e.nOk3))

/-- State of the staircase: blocks dug, the rotating direction index, the
current floored y, and the abort flag. -/
structure St where
  dug : Nat
  dirIndex : Nat
  y : Int
  abortFlag : Bool
deriving DecidableEq

/-- Why the staircase loop stopped. -/
inductive Reason
  | aborted
  | lavaBelowStop
  | completed
  | fuelOut
deriving DecidableEq

/-- The staircase loop (lines 5888-5958): while above the target elevation
and below the dig budget — abort observe-clear-return; preemptive lava
scan (on failure `dirIndex++` and `continue`, digging nothing); dig the
up-to-three blocks; move and re-read the actual y; stop on lava directly
below. -/
def digDownLoop (env : Nat → IterEnv) (targetY : Int) (maxDepth : Nat)
    (hasBucket : Bool) : Nat → Nat → St → St × Reason
  | 0, _, st => (st, .fuelOut)
  | fuel + 1, t, st =>
    if ¬ (targetY < st.y ∧ st.dug < maxDepth * 4) then (st, .completed)
    else
      let e := env t
      let st1 : St := { st with abortFlag := st.abortFlag || e.abortSet }
      if st1.abortFlag then ({ st1 with abortFlag := false }, .aborted)
      else if lavaAhead hasBucket e then
        digDownLoop env targetY maxDepth hasBucket fuel (t + 1)
          { st1 with dirIndex := st1.dirIndex + 1 }
      else
        let dug1 := st1.dug + (if e.b1 && e.d1 then 1 else 0)
          + (if e.b2 && e.d2 then 1 else 0) + (if e.b3 && e.d3 then 1 else 0)
        let st2 : St :=
          { st1 with dug := dug1, y := e.movedToY, dirIndex := st1.dirIndex + 1 }
        if e.lavaBelow then (st2, .lavaBelowStop)
        else digDownLoop env targetY maxDepth hasBucket fuel (t + 1) st2

/-- Response flags (lines 5891, 5946-5949, 5962-5965): abort reports
`success:false` with the partial count; the lava-below stop and normal
completion report `success:true`. -/
def digDownResponse : St × Reason → Mine.Resp
  | (st, r) =>
    match r with
    | .aborted => ⟨false, st.dug⟩
    | _ => ⟨true, st.dug⟩

end DigDown

-- ============================================================
-- POST /action/dig_tunnel  (src/server.js lines 5972-6075)
-- ============================================================

namespace Tunnel

/-- World-side outcomes for one tunnel step: the lava scan of the next
column and its neutralization outcome, then solidity / lava-name /
dig-success for the two blocks (dy = 0 and dy = 1). -/
structure IterEnv where
  abortSet : Bool
  scan : List Mine.Pos
  nOk : Bool
  sol0 : Bool
  lava0 : Bool
  d0 : Bool
  sol1 : Bool
  lava1 : Bool
  d1 : Bool

/-- Tunnel state: blocks dug and the abort flag (ore bookkeeping feeds
only the message string and is not modelled). -/
structure St where
  dug : Nat
  abortFlag : Bool
deriving DecidableEq

/-- Why the tunnel loop stopped. -/
inductive Reason
  | aborted
  | lavaScanStop
  | lavaBlockStop
  | completed
deriving DecidableEq

/-- The tunnel loop (lines 6007-6063), by remaining steps: abort
observe-clear-return; preemptive lava scan with stop on failed
neutralization (before any dig of the step); then the 1x2 column with the
in-loop lava fallback check; then move. -/
def tunnelLoop (env : Nat → IterEnv) (hasBucket : Bool) :
    Nat → Nat → St → St × Reason
  | 0, _, st => (st, .completed)
  | rem + 1, t, st =>
    let e := env t
    let st1 : St := { st with abortFlag := st.abortFlag || e.abortSet }
    if st1.abortFlag then ({ st1 with abortFlag := false }, .aborted)
    else if !e.scan.isEmpty && !(Lava.tryWaterBucketOnLava hasBucket e.nOk) then
      (st1, .lavaScanStop)
    else if e.sol0 && e.lava0 then (st1, .lavaBlockStop)
    else
      let st2 : St := if e.sol0 && e.d0 then { st1 with dug := st1.dug + 1 } else st1
      if e.sol1 && e.lava1 then (st2, .lavaBlockStop)
      else
        let st3 : St := if e.sol1 && e.d1 then { st2 with dug := st2.dug + 1 } else st2
        tunnelLoop env hasBucket rem (t + 1) st3

/-- Response flags (lines 6013, 6027-6030, 6050-6053, 6068-6071): abort
reports `success:false` with the partial count; both lava stops and
completion report `success:true`. -/
def tunnelResponse : St × Reason → Mine.Resp
  | (st, r) =>
    match r with
    | .aborted => ⟨false, st.dug⟩
    | _ => ⟨true, st.dug⟩

end Tunnel

-- ============================================================
-- POST /action/branch_mine  (src/server.js lines 6078-6187)
-- ============================================================

namespace Branch

/-- World-side outcomes for one `digStep` call: the lava scan ahead with
its neutralization outcome, then solidity / lava-name / dig-success for
the two blocks of the 1x2 step. -/
structure StepEnv where
  scan : List Mine.Pos
  nOk : Bool
  sol0 : Bool
  lava0 : Bool
  d0 : Bool
  sol1 : Bool
  lava1 : Bool
  d1 : Bool

/-- `digStep` (lines 6126-6140): `none` when lava blocks the step (failed
neutralization, or a lava block where a dig target should be — nothing of
the step is dug past that point), otherwise the updated dig count. -/
def digStepRun (hasBucket : Bool) (e : StepEnv) (dug : Nat) : Option Nat :=
  if !e.scan.isEmpty && !(Lava.tryWaterBucketOnLava hasBucket e.nOk) then none
  else if e.sol0 && e.lava0 then none
  else
    let dug1 := if e.sol0 && e.d0 then dug + 1 else dug
    if e.sol1 && e.lava1 then none
    else some (if e.sol1 && e.d1 then dug1 + 1 else dug1)

/-- One per-main-iteration bundle: the abort observation, the main-tunnel
step, and the outcome streams of the two perpendicular branches. -/
structure MainEnv where
  abortSet : Bool
  main : StepEnv
  branch1 : Nat → StepEnv
  branch1Abort : Nat → Bool
  branch2 : Nat → StepEnv
  branch2Abort : Nat → Bool

/-- One perpendicular branch tunnel (lines 6162-6169): per step, observe
the abort flag (break without clearing), run `digStep`, stop at lava. -/
def branchTunnel (hasBucket : Bool) (benv : Nat → StepEnv) (babort : Nat → Bool) :
    Nat → Nat → Nat × Bool → Nat × Bool
  | 0, _, s => s
  | rem + 1, j, (dug, flag) =>
    let flag1 := flag || babort j
    if flag1 then (dug, flag1)
    else
      match digStepRun hasBucket (benv j) dug with
      | none => (dug, flag1)
      | some d => branchTunnel hasBucket benv babort rem (j + 1) (d, flag1)

/-- Why the branch-mine main loop stopped. -/
inductive Reason
  | aborted
  | lavaStop
  | completed
deriving DecidableEq

/-- The main branch-mine loop (lines 6143-6177), by remaining steps:
abort observe-clear-return; main `digStep` with stop at lava; at branch
intervals (`i > 0 && i % spacing == 0`) the two perpendicular branch
tunnels. -/
def branchMainLoop (env : Nat → MainEnv) (hasBucket : Bool)
    (spacing bl : Nat) : Nat → Nat → Nat × Bool → (Nat × Bool) × Reason
  | 0, _, s => (s, .completed)
  | rem + 1, i, (dug, flag) =>
    let e := env i
    let flag1 := flag || e.abortSet
    if flag1 then ((dug, false), .aborted)
    else
      match digStepRun hasBucket e.main dug with
      | none => ((dug, flag1), .lavaStop)
      | some d =>
        let s1 :=
          if 0 < i ∧ i % spacing = 0 then
            let b1 := branchTunnel hasBucket e.branch1 e.branch1Abort bl 0 (d, flag1)
            branchTunnel hasBucket e.branch2 e.branch2Abort bl 0 b1
          else (d, flag1)
        branchMainLoop env hasBucket spacing bl rem (i + 1) s1

/-- Response flags (lines 6147, 6154, 6180-6183): abort reports
`success:false` with the partial count; the lava stop and completion
report `success:true`. -/
def branchResponse : (Nat × Bool) × Reason → Mine.Resp
  | ((dug, _), r) =>
    match r with
    | .aborted => ⟨false, dug⟩
    | _ => ⟨true, dug⟩

end Branch

-- ============================================================
-- POST /action/build_shelter  (src/server.js lines 6190-6400)
-- ============================================================

namespace Shelter

/-- One wall layer's outcomes: the abort observation at the top of the
layer and the number of blocks the four wall runs successfully placed
(the per-position `placeAt` outcomes are summarized by their count, the
only quantity the responses report). -/
structure LayerEnv where
  abortSet : Bool
  placedDelta : Nat

/-- The wall loop (lines 6329-6350): three layers, each preceded by an
abort observe-clear-return; returns the placed count, the remaining
abort flag, and whether the loop aborted. -/
def shelterWalls (env : Nat → LayerEnv) : Nat → Nat → Nat × Bool → (Nat × Bool) × Bool
  | 0, _, s => (s, false)
  | rem + 1, y, (placed, flag) =>
    let e := env y
    let flag1 := flag || e.abortSet
    if flag1 then ((placed, false), true)
    else shelterWalls env rem (y + 1) (placed + e.placedDelta, flag1)

/-- The whole build (walls, then roof/door placements summarized by
`roofDelta`): abort reports `success:false` with the partial count
(line 6332), completion reports `success:true`. -/
def shelterRun (env : Nat → LayerEnv) (roofDelta : Nat) : Mine.Resp :=
  let w := shelterWalls env 3 0 (0, false)
  if w.2 then ⟨false, w.1.1⟩
  else ⟨true, w.1.1 + roofDelta⟩

end Shelter

-- ============================================================
-- Combat state tracking
-- bot.on('health') handler (src/server.js lines 6482-6553) and
-- GET /combat_status (lines 4044-4066)
-- ============================================================

namespace Combat

/-- One entry of `recentAttacks` (lines 6520-6526). -/
structure Attack where
  atype : String
  damage : ℚ
  time : Nat
deriving DecidableEq

/-- `combatState` (lines 3798-3806). -/
structure CombatState where
  isUnderAttack : Bool
  lastHitTime : Nat
  lastAttacker : Option String
  healthBefore : ℚ
  healthDelta : ℚ
  recentAttacks : List Attack
  combatStartTime : Nat
deriving DecidableEq

/-- Initial `combatState` (lines 3798-3806). -/
def initState : CombatState := ⟨false, 0, none, 20, 0, [], 0⟩

/-- The health-event handler (lines 6493-6540).  `prevHealth` is the
health stored in `lastHealthSnapshot` by the previous event; a positive
delta marks the bot under attack, records the attack (ring buffer of 10:
push then shift), and stamps the combat start; afterwards the handler
clears the combat state when the last hit is more than 5000 ms old. -/
def healthEvent (now : Nat) (prevHealth health : ℚ) (attacker : Option String)
    (cs : CombatState) : CombatState :=
  let damage := prevHealth - health
  let cs1 :=
    if 0 < damage then
      let ra := cs.recentAttacks ++
        [⟨(match attacker with | some a => a | none => "unknown"), damage, now⟩]
      let ra1 := if 10 < ra.length then ra.tail else ra
      { cs with
          isUnderAttack := true
          lastHitTime := now
          healthBefore := prevHealth
          healthDelta := damage
          lastAttacker := attacker
          recentAttacks := ra1
          combatStartTime := if cs.combatStartTime = 0 then now else cs.combatStartTime }
    else cs
  if cs1.isUnderAttack ∧ 5000 < now - cs1.lastHitTime then
    { cs1 with isUnderAttack := false, combatStartTime := 0, lastAttacker := none }
  else cs1

/-- The read-side refresh in GET /combat_status (lines 4047-4053). -/
def combatStatusRefresh (now : Nat) (cs : CombatState) : CombatState :=
  if cs.isUnderAttack ∧ 5000 < now - cs.lastHitTime then
    { cs with isUnderAttack := false, combatStartTime := 0, lastAttacker := none }
  else cs

/-- A stream of health events (`Date.now()`, new health, nearest-hostile
attacker guess) folded through the handler, threading the
`lastHealthSnapshot` health (initially 20, line 3794). -/
def runEvents : List (Nat × ℚ × Option String) → CombatState × ℚ → CombatState × ℚ
  | [], s => s
  | (now, h, att) :: rest, (cs, prev) => runEvents rest (healthEvent now prev h att cs, h)

end Combat

-- ============================================================
-- POST /abort and the /action middleware
-- (src/server.js lines 3861-3876)
-- ============================================================

namespace Server

/-- The process-wide mutable state the abort endpoint can see: the abort
flag, the active pathfinder goal, and (as representatives of everything
else) the combat state and the chat log. -/
structure ServerState where
  abortFlag : Bool
  navGoal : Option Mine.Pos
  combat : Combat.CombatState
  chatLog : List String
deriving DecidableEq

/-- POST /abort (lines 3861-3866): set the flag, reset the navigation
goal, answer `success:true`.  Nothing else. -/
def abortEndpoint (s : ServerState) : ServerState × Bool :=
  ({ s with abortFlag := true, navGoal := none }, true)

/-- The `/action` middleware (lines 3870-3876): clear a stale abort flag
before any new action request. -/
def actionGate (s : ServerState) : ServerState :=
  if s.abortFlag then { s with abortFlag := false } else s

end Server

-- ============================================================
-- POST /action/escape_water  (src/server.js lines 5556-5742)
-- ============================================================

namespace Escape

/-- The world-facing primitives escape_water can issue; the frame claim
needs only to see that the early return issues none of them. -/
inductive Action
  | digUp
  | controlOn (name : String)
  | controlOff (name : String)
  | place
  | equip
  | goto
deriving DecidableEq

/-- Outcomes of the in-water phases: the blocked-above scan (lines
5568-5585), the swim poll (lines 5592-5613), the pillar fallback (lines
5618-5669), the final submersion check (line 5672), and the land search
and pathfind of phase 2 (lines 5678-5728). -/
structure Env where
  blockedAbove : Bool
  digOk : Bool
  secondDig : Bool
  inWaterAfterSwim : Bool
  haveBlockItem : Bool
  pillarPlaced : Nat
  inWaterFinal : Bool
  landFound : Bool
  gotoOk : Bool
  inWaterAfterGoto : Bool

/-- The three in-water phases, summarized at the level of the primitives
they issue and the response they produce. -/
def escapePhases (e : Env) : Bool × List Action :=
  let digs : List Action :=
    if e.blockedAbove && e.digOk then
      (if e.secondDig then [.digUp, .digUp] else [.digUp])
    else []
  let swim : List Action :=
    [.controlOn "jump", .controlOn "sprint", .controlOff "jump", .controlOff "sprint"]
  let pillar : List Action :=
    if e.inWaterAfterSwim && e.haveBlockItem then
      (List.replicate e.pillarPlaced Action.place) ++
        [.controlOn "jump", .controlOff "jump"]
    else []
  let acts := digs ++ swim ++ pillar
  if e.inWaterAfterSwim && e.inWaterFinal then (false, acts)
  else if e.landFound then
    if e.gotoOk then (true, acts ++ [.goto])
    else if !e.inWaterAfterGoto then (true, acts ++ [.goto])
    else (false, acts ++ [.goto])
  else (true, acts)

/-- POST /action/escape_water (lines 5556-5742): the not-in-water early
return (lines 5560-5562) answers `success:true` at once and issues no
primitive at all; otherwise the three phases run. -/
def escapeWater (isInWater : Bool) (e : Env) : Bool × List Action :=
  if ¬ isInWater then (true, [])
  else escapePhases e

end Escape

-- ============================================================
-- Concrete scenarios used by the counterexamples and witnesses
-- ============================================================

namespace Mine

/-- A cluster entry where everything succeeds. -/
def happyCluster : ClusterEnv :=
  ⟨false, some "stone_pickaxe", true, none, true, true, true, true⟩

/-- Iteration 0 of the overshoot run: one target found and dug, one
same-material neighbour in the cluster scan. -/
def iterA : IterEnv :=
  ⟨false, [⟨1, 0, 0⟩], fun _ => true, true, some "stone_pickaxe", true, none,
   true, true, true, [⟨2, 0, 0⟩], fun _ => happyCluster⟩

/-- Later iterations of the overshoot run: a fresh target, no cluster. -/
def iterB : IterEnv :=
  ⟨false, [⟨3, 0, 0⟩], fun _ => true, true, some "stone_pickaxe", true, none,
   true, true, true, [], fun _ => happyCluster⟩

/-- The overshoot environment: request 2, dig 1 + cluster 1 in iteration
0, then the outer loop runs again and digs a third block. -/
def envC1 : Nat → IterEnv := fun t => if t = 0 then iterA else iterB

/-- Fresh operation state holding a stone pickaxe. -/
def st0 : St := ⟨0, ∅, some "stone_pickaxe", false⟩

/-- An iteration during which an external abort arrives. -/
def abortIter : IterEnv :=
  ⟨true, [⟨1, 0, 0⟩], fun _ => true, true, some "stone_pickaxe", true, none,
   true, true, true, [], fun _ => happyCluster⟩

/-- Abort environment. -/
def envAbort : Nat → IterEnv := fun _ => abortIter

/-- Ten blacklisted positions — the MAX_FAILS cap. -/
def capSet : Finset Pos :=
  (List.range 10).foldr (fun k s => insert (⟨Int.ofNat k, 0, 0⟩ : Pos) s) ∅

/-- Operation state that has hit the unreachable cap. -/
def stCap : St := ⟨0, capSet, some "stone_pickaxe", false⟩

/-- An iteration where the held item was swapped and the selected tool is
gone from the inventory with no replacement. -/
def brokeIter : IterEnv :=
  ⟨false, [⟨1, 0, 0⟩], fun _ => true, true, some "dirt", false, none,
   true, true, true, [], fun _ => happyCluster⟩

/-- Broke-tool environment. -/
def envBroke : Nat → IterEnv := fun _ => brokeIter

end Mine

namespace Tunnel

/-- A tunnel step during which an external abort arrives. -/
def tnAbortEnv : Nat → IterEnv :=
  fun _ => ⟨true, [], true, true, false, true, true, false, true⟩

/-- A tunnel step with lava scanned ahead. -/
def tnLavaEnv : Nat → IterEnv :=
  fun _ => ⟨false, [⟨5, 11, 0⟩], true, true, false, true, true, false, true⟩

/-- A tunnel step with lava scanned ahead whose water-bucket
neutralization attempt fails (`nOk = false`). -/
def tnLavaFailEnv : Nat → IterEnv :=
  fun _ => ⟨false, [⟨5, 11, 0⟩], false, true, false, true, true, false, true⟩

end Tunnel

namespace DigDown

/-- A staircase step with lava scanned near the forward dig target. -/
def ddLavaEnv : Nat → IterEnv :=
  fun _ => ⟨false, [⟨5, 11, 0⟩], [], [], true, true, true,
            true, true, true, true, true, true, 10, false⟩

/-- A staircase step with lava scanned near the forward dig target whose
water-bucket neutralization attempt fails (`nOk1 = false`). -/
def ddLavaFailEnv : Nat → IterEnv :=
  fun _ => ⟨false, [⟨5, 11, 0⟩], [], [], false, true, true,
            true, true, true, true, true, true, 10, false⟩

/-- Staircase state at y = 12, nothing dug yet. -/
def ddSt : St := ⟨0, 0, 12, false⟩

end DigDown

namespace Branch

/-- A `digStep` with lava scanned ahead. -/
def brLavaStep : StepEnv := ⟨[⟨5, 11, 0⟩], true, true, false, true, true, false, true⟩

/-- A `digStep` with lava scanned ahead whose water-bucket neutralization
attempt fails (`nOk = false`). -/
def brLavaFailStep : StepEnv := ⟨[⟨5, 11, 0⟩], false, true, false, true, true, false, true⟩

/-- A main iteration whose forward step hits the lava. -/
def brLavaEnv : Nat → MainEnv :=
  fun _ => ⟨false, brLavaStep, fun _ => brLavaStep, fun _ => false,
            fun _ => brLavaStep, fun _ => false⟩

/-- A main iteration whose forward step hits lava that the bucket fails
to neutralize. -/
def brLavaFailEnv : Nat → MainEnv :=
  fun _ => ⟨false, brLavaFailStep, fun _ => brLavaFailStep, fun _ => false,
            fun _ => brLavaFailStep, fun _ => false⟩

end Branch

namespace Server

/-- A server state with a stale abort flag, an active goal, and nonempty
combat/chat state. -/
def s0 : ServerState :=
  ⟨true, some ⟨1, 2, 3⟩, Combat.initState, ["hello"]⟩

end Server

end MCBot

-- ============================================================
-- Helper lemmas
-- ============================================================

namespace MCBot.Mine

theorem chunks_append {a b : List Ev} (ha : Chunks a) (hb : Chunks b) : Chunks (a ++ b) := by
  induction ha with
  | nil => exact hb
  | ens _ ih => exact Chunks.ens ih
  | ensdig _ ih => exact Chunks.ensdig ih

theorem chunks_guardedFrom {l : List Ev} (h : Chunks l) : ∀ b, guardedFrom b l = true := by
  induction h with
  | nil => intro b; rfl
  | ens _ ih => intro b; simpa [guardedFrom] using ih true
  | ensdig _ ih =>
    intro b
    simp only [guardedFrom, Bool.true_and]
    exact ih false

theorem guardedFrom_get :
    ∀ (l : List Ev) (b : Bool), guardedFrom b l = true →
      (∀ n, l.get? (n + 1) = some .dig → l.get? n = some .ensure) ∧
      (b = false → l.get? 0 ≠ some .dig) := by
  intro l
  induction l with
  | nil =>
    intro b _
    constructor
    · intro n hn; simp at hn
    · intro _; simp
  | cons a l ih =>
    intro b h
    cases a with
    | ensure =>
      have h' : guardedFrom true l = true := by simpa [guardedFrom] using h
      constructor
      · intro n hn
        match n, hn with
        | 0, hn => rfl
        | n + 1, hn =>
          have := (ih true h').1 n (by simpa using hn)
          simpa using this
      · intro _; simp
    | dig =>
      have hb : b = true ∧ guardedFrom false l = true := by
        cases b with
        | false => simp [guardedFrom] at h
        | true => exact ⟨rfl, by simpa [guardedFrom] using h⟩
      constructor
      · intro n hn
        match n, hn with
        | 0, hn =>
          exact absurd (by simpa using hn) ((ih false hb.2).2 rfl)
        | n + 1, hn =>
          have := (ih false hb.2).1 n (by simpa using hn)
          simpa using this
      · intro hbf; rw [hbf] at hb; exact absurd hb.1 (by simp)

theorem clusterRun_chunks (cenv : Nat → ClusterEnv) (M : Nat) (nT : Bool) :
    ∀ (l : List Pos) (j : Nat) (st : St), Chunks (clusterRun cenv M nT l j st).2 := by
  intro l
  induction l with
  | nil => intro j st; exact Chunks.nil
  | cons p rest ih =>
    intro j st
    simp only [clusterRun]
    split_ifs <;>
      first
        | exact Chunks.nil
        | exact Chunks.ens Chunks.nil
        | exact Chunks.ens (ih _ _)
        | exact Chunks.ensdig (ih _ _)

theorem mineStep_chunks (e : IterEnv) (M : Nat) (nT iW : Bool) (i : Nat) (st : St) :
    (∀ st' r evs, mineStep e M nT iW i st = .stop st' r evs → Chunks evs) ∧
    (∀ i' st' evs, mineStep e M nT iW i st = .next i' st' evs → Chunks evs) := by
  constructor <;> intro a b evs h <;>
    (simp only [mineStep] at h; repeat' split at h) <;>
    first
      | exact StepRes.noConfusion h
      | (injection h with hA hB hC; subst hC;
         try dsimp only;
         try simp only [List.cons_append, List.nil_append];
         first
           | exact Chunks.nil
           | exact Chunks.ens Chunks.nil
           | exact Chunks.ensdig Chunks.nil
           | exact Chunks.ens (clusterRun_chunks _ _ _ _ _ _)
           | exact Chunks.ensdig (clusterRun_chunks _ _ _ _ _ _))

theorem mineLoop_chunks (env : Nat → IterEnv) (M : Nat) (nT iW : Bool) :
    ∀ (fuel t i : Nat) (st : St), Chunks (mineLoop env M nT iW fuel t i st).2.2 := by
  intro fuel
  induction fuel with
  | zero => intro t i st; exact Chunks.nil
  | succ fuel ih =>
    intro t i st
    simp only [mineLoop]
    cases hstep : mineStep (env t) M nT iW i st with
    | stop st' r evs =>
      exact (mineStep_chunks _ _ _ _ _ _).1 _ _ _ hstep
    | next i' st' evs =>
      exact chunks_append ((mineStep_chunks _ _ _ _ _ _).2 _ _ _ hstep) (ih _ _ _)

end MCBot.Mine

namespace MCBot.Mine

theorem mineLoop_abort_eq (env : Nat → IterEnv) (M : Nat) (nT iW : Bool)
    (fuel t i : Nat) (st : St) (hi : i < M) (hc : st.failed.card < MAX_FAILS)
    (hA : (st.abortFlag || (env t).abortSet) = true) :
    mineLoop env M nT iW (fuel + 1) t i st =
      (⟨st.mined, st.failed, st.tool, false⟩, .aborted, []) := by
  have h1 : ¬ M ≤ i := Nat.not_le.mpr hi
  have h2 : ¬ MAX_FAILS ≤ st.failed.card := Nat.not_le.mpr hc
  simp [mineLoop, mineStep, h1, h2, hA]

theorem mineLoop_failCap_eq (env : Nat → IterEnv) (M : Nat) (nT iW : Bool)
    (fuel t i : Nat) (st : St) (hi : i < M) (hc : MAX_FAILS ≤ st.failed.card) :
    mineLoop env M nT iW (fuel + 1) t i st = (st, .failCap, []) := by
  have h1 : ¬ M ≤ i := Nat.not_le.mpr hi
  simp [mineLoop, mineStep, h1, hc]

theorem mineLoop_unreachable_eq (env : Nat → IterEnv) (M : Nat) (nT iW : Bool)
    (fuel t i : Nat) (st : St) (p : Pos) (hi : i < M)
    (hc : st.failed.card < MAX_FAILS)
    (hA : (st.abortFlag || (env t).abortSet) = false)
    (hsel : selectTarget (env t) st.failed = some p)
    (hr : (env t).reached = false) :
    mineLoop env M nT iW (fuel + 1) t i st =
      mineLoop env M nT iW fuel (t + 1) i
        ⟨st.mined, insert p st.failed, st.tool, false⟩ := by
  have h1 : ¬ M ≤ i := Nat.not_le.mpr hi
  have h2 : ¬ MAX_FAILS ≤ st.failed.card := Nat.not_le.mpr hc
  simp [mineLoop, mineStep, h1, h2, hA, hsel, hr, Prod.mk.eta]

theorem mineLoop_toolBroke_eq (env : Nat → IterEnv) (M : Nat) (nT iW : Bool)
    (fuel t i : Nat) (st : St) (p : Pos) (hi : i < M)
    (hc : st.failed.card < MAX_FAILS)
    (hA : (st.abortFlag || (env t).abortSet) = false)
    (hsel : selectTarget (env t) st.failed = some p)
    (hr : (env t).reached = true)
    (hens : (ensureToolHeldRun st.tool (env t).held (env t).toolInInv
              (env t).retool (env t).equipOk).1 = none)
    (hnT : nT = true) :
    mineLoop env M nT iW (fuel + 1) t i st =
      (⟨st.mined, st.failed, none, false⟩, .toolBroke, [.ensure]) := by
  have h1 : ¬ M ≤ i := Nat.not_le.mpr hi
  have h2 : ¬ MAX_FAILS ≤ st.failed.card := Nat.not_le.mpr hc
  simp [mineLoop, mineStep, h1, h2, hA, hsel, hr, hens, hnT]

theorem mineStep_stop_abort_flag (e : IterEnv) (M : Nat) (nT iW : Bool)
    (i : Nat) (st : St) :
    ∀ st' evs, mineStep e M nT iW i st = .stop st' .aborted evs →
      st'.abortFlag = false := by
  intro st' evs h
  simp only [mineStep] at h
  repeat' split at h
  all_goals first
    | exact StepRes.noConfusion h
    | (injection h with hA hB hC; exact Reason.noConfusion hB)
    | (injection h with hA hB hC; subst hA; rfl)

theorem mineLoop_aborted_flag (env : Nat → IterEnv) (M : Nat) (nT iW : Bool) :
    ∀ (fuel t i : Nat) (st : St),
      (mineLoop env M nT iW fuel t i st).2.1 = .aborted →
      (mineLoop env M nT iW fuel t i st).1.abortFlag = false := by
  intro fuel
  induction fuel with
  | zero => intro t i st h; simp [mineLoop] at h
  | succ fuel ih =>
    intro t i st h
    simp only [mineLoop] at h ⊢
    cases hstep : mineStep (env t) M nT iW i st with
    | stop st' r evs =>
      rw [hstep] at h
      simp only [] at h
      subst h
      exact mineStep_stop_abort_flag _ _ _ _ _ _ _ _ hstep
    | next i' st' evs =>
      rw [hstep] at h
      simp only [] at h
      exact ih _ _ _ h

theorem selectTarget_not_failed (e : IterEnv) (failed : Finset Pos) (p : Pos) :
    selectTarget e failed = some p → p ∉ failed ∧ e.solid p = true := by
  intro h
  have := List.find?_some h
  simp only [Bool.and_eq_true, decide_eq_true_eq] at this
  exact this

theorem clusterQueue_not_failed (cluster : List Pos) (failed : Finset Pos) (p : Pos) :
    p ∈ clusterQueue cluster failed → p ∉ failed := by
  intro h
  have := List.mem_filter.mp h
  simpa using this.2

end MCBot.Mine

namespace MCBot

namespace DigDown

theorem digDownLoop_abort_eq (env : Nat → IterEnv) (targetY : Int)
    (maxDepth : Nat) (hB : Bool) (fuel t : Nat) (st : St)
    (hg1 : targetY < st.y) (hg2 : st.dug < maxDepth * 4)
    (hA : (st.abortFlag || (env t).abortSet) = true) :
    digDownLoop env targetY maxDepth hB (fuel + 1) t st =
      (⟨st.dug, st.dirIndex, st.y, false⟩, .aborted) := by
  simp [digDownLoop, hg1, hg2, hA]

theorem digDownLoop_lava_eq (env : Nat → IterEnv) (targetY : Int)
    (maxDepth : Nat) (hB : Bool) (fuel t : Nat) (st : St)
    (hg1 : targetY < st.y) (hg2 : st.dug < maxDepth * 4)
    (hA : (st.abortFlag || (env t).abortSet) = false)
    (hlava : lavaAhead hB (env t) = true) :
    digDownLoop env targetY maxDepth hB (fuel + 1) t st =
      digDownLoop env targetY maxDepth hB fuel (t + 1)
        ⟨st.dug, st.dirIndex + 1, st.y, false⟩ := by
  simp [digDownLoop, hg1, hg2, hA, hlava]

theorem lavaAhead_noBucket (e : IterEnv) :
    lavaAhead false e =
      (!e.scan1.isEmpty || !e.scan2.isEmpty || !e.scan3.isEmpty) := by
  simp [lavaAhead, Lava.tryWaterBucketOnLava]

theorem lavaAhead_of_fail (hB : Bool) (e : IterEnv)
    (h : (e.scan1.isEmpty = false ∧ Lava.tryWaterBucketOnLava hB e.nOk1 = false) ∨
         (e.scan2.isEmpty = false ∧ Lava.tryWaterBucketOnLava hB e.nOk2 = false) ∨
         (e.scan3.isEmpty = false ∧ Lava.tryWaterBucketOnLava hB e.nOk3 = false)) :
    lavaAhead hB e = true := by
  rcases h with ⟨h1, h2⟩ | ⟨h1, h2⟩ | ⟨h1, h2⟩ <;> simp [lavaAhead, h1, h2]

end DigDown

namespace Tunnel

theorem tunnelLoop_abort_eq (env : Nat → IterEnv) (hB : Bool) (rem t : Nat)
    (st : St) (hA : (st.abortFlag || (env t).abortSet) = true) :
    tunnelLoop env hB (rem + 1) t st = (⟨st.dug, false⟩, .aborted) := by
  simp [tunnelLoop, hA]

theorem tunnelLoop_lavaScan_eq (env : Nat → IterEnv) (hB : Bool) (rem t : Nat)
    (st : St) (hA : (st.abortFlag || (env t).abortSet) = false)
    (hscan : (env t).scan.isEmpty = false)
    (hfail : Lava.tryWaterBucketOnLava hB (env t).nOk = false) :
    tunnelLoop env hB (rem + 1) t st = (⟨st.dug, false⟩, .lavaScanStop) := by
  simp [tunnelLoop, hA, hscan, hfail]

end Tunnel

namespace Branch

theorem digStepRun_lavaFail_eq (hB : Bool) (e : StepEnv) (dug : Nat)
    (hscan : e.scan.isEmpty = false)
    (hfail : Lava.tryWaterBucketOnLava hB e.nOk = false) :
    digStepRun hB e dug = none := by
  simp [digStepRun, hscan, hfail]

theorem branchMainLoop_abort_eq (env : Nat → MainEnv) (hB : Bool)
    (sp bl rem i dug : Nat) (flag : Bool)
    (hA : (flag || (env i).abortSet) = true) :
    branchMainLoop env hB sp bl (rem + 1) i (dug, flag) =
      ((dug, false), .aborted) := by
  simp [branchMainLoop, hA]

theorem branchMainLoop_lava_eq (env : Nat → MainEnv) (hB : Bool)
    (sp bl rem i dug : Nat) (flag : Bool)
    (hA : (flag || (env i).abortSet) = false)
    (hstep : digStepRun hB (env i).main dug = none) :
    branchMainLoop env hB sp bl (rem + 1) i (dug, flag) =
      ((dug, false), .lavaStop) := by
  simp [branchMainLoop, hA, hstep]

end Branch

namespace Shelter

theorem shelterWalls_abort_eq (env : Nat → LayerEnv) (rem y placed : Nat)
    (flag : Bool) (hA : (flag || (env y).abortSet) = true) :
    shelterWalls env (rem + 1) y (placed, flag) = ((placed, false), true) := by
  simp [shelterWalls, hA]

theorem shelterRun_abort_eq (env : Nat → LayerEnv) (roofDelta : Nat)
    (hA : (env 0).abortSet = true) :
    shelterRun env roofDelta = ⟨false, 0⟩ := by
  simp [shelterRun, shelterWalls, hA]

end Shelter

namespace Combat

theorem healthEvent_damage_sets (now : Nat) (prevHealth health : ℚ)
    (att : Option String) (cs : CombatState) (hd : health < prevHealth) :
    (healthEvent now prevHealth health att cs).isUnderAttack = true ∧
    (healthEvent now prevHealth health att cs).lastHitTime = now := by
  have hpos : 0 < prevHealth - health := sub_pos.mpr hd
  simp [healthEvent, hpos]

theorem healthEvent_clears (now : Nat) (prevHealth health : ℚ)
    (att : Option String) (cs : CombatState) (hnd : prevHealth ≤ health)
    (hia : cs.isUnderAttack = true) (ht : 5000 < now - cs.lastHitTime) :
    healthEvent now prevHealth health att cs =
      { cs with isUnderAttack := false, combatStartTime := 0,
                lastAttacker := none } := by
  have hneg : ¬ 0 < prevHealth - health := by
    simp only [not_lt]
    exact sub_nonpos.mpr hnd
  simp [healthEvent, hneg, hia, ht]

theorem healthEvent_keeps (now : Nat) (prevHealth health : ℚ)
    (att : Option String) (cs : CombatState) (hnd : prevHealth ≤ health)
    (ht : now - cs.lastHitTime ≤ 5000) :
    healthEvent now prevHealth health att cs = cs := by
  have hneg : ¬ 0 < prevHealth - health := by
    simp only [not_lt]
    exact sub_nonpos.mpr hnd
  have ht' : ¬ 5000 < now - cs.lastHitTime := Nat.not_lt.mpr ht
  simp [healthEvent, hneg, ht']

theorem combatStatusRefresh_clears (now : Nat) (cs : CombatState)
    (hia : cs.isUnderAttack = true) (ht : 5000 < now - cs.lastHitTime) :
    combatStatusRefresh now cs =
      { cs with isUnderAttack := false, combatStartTime := 0,
                lastAttacker := none } := by
  simp [combatStatusRefresh, hia, ht]

theorem combatStatusRefresh_keeps (now : Nat) (cs : CombatState)
    (ht : now - cs.lastHitTime ≤ 5000) :
    combatStatusRefresh now cs = cs := by
  have ht' : ¬ 5000 < now - cs.lastHitTime := Nat.not_lt.mpr ht
  simp [combatStatusRefresh, ht']

theorem healthEvent_ra_le (now : Nat) (prevHealth health : ℚ)
    (att : Option String) (cs : CombatState)
    (h : cs.recentAttacks.length ≤ 10) :
    (healthEvent now prevHealth health att cs).recentAttacks.length ≤ 10 := by
  simp only [healthEvent]
  split_ifs <;> simp_all

theorem runEvents_ra_le :
    ∀ (evs : List (Nat × ℚ × Option String)) (cs : CombatState) (prev : ℚ),
      cs.recentAttacks.length ≤ 10 →
      ((runEvents evs (cs, prev)).1).recentAttacks.length ≤ 10 := by
  intro evs
  induction evs with
  | nil => intro cs prev h; exact h
  | cons e rest ih =>
    intro cs prev h
    simp only [runEvents]
    exact ih _ _ (healthEvent_ra_le _ _ _ _ _ h)

end Combat

end MCBot

namespace MCBot

namespace Tools

theorem mineToolCheck_noTool_eq (bt : String) (inv : List String)
    (hn : needsToolB bt = true) (ha : autoEquipBestTool bt inv = none) :
    mineToolCheck bt inv none = .noTool := by
  simp [mineToolCheck, mineEquipped, hn, ha]

theorem mineToolCheck_noTool_held_eq (bt : String) (inv : List String) (h : String)
    (hn : needsToolB bt = true) (ha : autoEquipBestTool bt inv = none)
    (h1 : strIncludes h "pickaxe" = false) (h2 : strIncludes h "axe" = false)
    (h3 : strIncludes h "shovel" = false) :
    mineToolCheck bt inv (some h) = .noTool := by
  simp [mineToolCheck, mineEquipped, hn, ha, h1, h2, h3]

theorem mineToolCheck_needStone_eq (bt : String) (inv : List String)
    (held : Option String) (tl : String)
    (he : mineEquipped bt inv held = some tl)
    (hs : needsStonePlusB bt = true) (hw : strStarts tl "wooden_" = true) :
    mineToolCheck bt inv held = .needStone := by
  simp [mineToolCheck, he, hs, hw]

theorem mineToolCheck_needIron_eq (bt : String) (inv : List String)
    (held : Option String) (tl : String)
    (he : mineEquipped bt inv held = some tl)
    (hi : needsIronPlusB bt = true)
    (hw : strStarts tl "wooden_" = false) (hst : strStarts tl "stone_" = true) :
    mineToolCheck bt inv held = .needIron := by
  simp [mineToolCheck, he, hi, hw, hst]

end Tools

namespace Mine

theorem mineEndpoint_noTool_eq (bt : String) (count : Nat) (inv : List String)
    (held : Option String) (env : Nat → IterEnv) (fuel : Nat)
    (h : Tools.mineToolCheck bt inv held = .noTool) :
    mineEndpoint bt count inv held env fuel = (.errNoTool, []) := by
  simp [mineEndpoint, h]

theorem mineEndpoint_needStone_eq (bt : String) (count : Nat) (inv : List String)
    (held : Option String) (env : Nat → IterEnv) (fuel : Nat)
    (h : Tools.mineToolCheck bt inv held = .needStone) :
    mineEndpoint bt count inv held env fuel = (.errNeedStone, []) := by
  simp [mineEndpoint, h]

theorem mineEndpoint_needIron_eq (bt : String) (count : Nat) (inv : List String)
    (held : Option String) (env : Nat → IterEnv) (fuel : Nat)
    (h : Tools.mineToolCheck bt inv held = .needIron) :
    mineEndpoint bt count inv held env fuel = (.errNeedIron, []) := by
  simp [mineEndpoint, h]

end Mine

namespace Threat

theorem recommendation_eq_amended (w : World) (h : threats w ≠ []) :
    recommendation w = amendedRec w := by
  rw [recommendation, amendedRec]
  split_ifs <;> first | rfl | (exact absurd (by assumption) h)

end Threat

end MCBot

namespace MCBot.Mine

theorem clusterRun_mined_le (cenv : Nat → ClusterEnv) (M : Nat) (nT : Bool) :
    ∀ (l : List Pos) (j : Nat) (st : St),
      (clusterRun cenv M nT l j st).1.mined ≤ max st.mined M := by
  intro l
  induction l with
  | nil => intro j st; simp [clusterRun]
  | cons p rest ih =>
    intro j st
    simp only [clusterRun]
    split_ifs with h1 h2 h3 h4 h5 <;>
      first
        | exact Nat.le_max_left _ _
        | · refine le_trans (ih _ _) ?_
            simp only [max_le_iff]
            refine ⟨?_, Nat.le_max_right _ _⟩
            omega

theorem mineStep_stop_mined (e : IterEnv) (M : Nat) (nT iW : Bool) (i : Nat) (st : St) :
    ∀ st' r evs, mineStep e M nT iW i st = .stop st' r evs → st'.mined = st.mined := by
  intro st' r evs h
  simp only [mineStep] at h
  repeat' split at h
  all_goals first
    | exact StepRes.noConfusion h
    | (injection h with hA hB hC; subst hA; rfl)

theorem mineStep_next_cases (e : IterEnv) (M : Nat) (nT iW : Bool) (i : Nat) (st : St) :
    ∀ i' st' evs, mineStep e M nT iW i st = .next i' st' evs →
      i < M ∧ ((i' = i ∧ st'.mined = st.mined) ∨
               (i' = i + 1 ∧ st'.mined ≤ max (st.mined + 1) M)) := by
  intro i' st' evs h
  simp only [mineStep] at h
  repeat' split at h
  all_goals first
    | exact StepRes.noConfusion h
    | (injection h with hA hB hC; subst hA; subst hB;
       refine ⟨by omega, ?_⟩;
       first
         | exact Or.inl ⟨rfl, rfl⟩
         | (refine Or.inr ⟨rfl, ?_⟩;
            first
              | (refine le_trans (clusterRun_mined_le _ _ _ _ _ _) ?_;
                 simp only [max_le_iff];
                 refine ⟨?_, Nat.le_max_right _ _⟩;
                 omega)
              | (dsimp only; omega)))

theorem mineLoop_mined_le (env : Nat → IterEnv) (M : Nat) (nT iW : Bool) :
    ∀ (fuel t i : Nat) (st : St),
      (mineLoop env M nT iW fuel t i st).1.mined ≤ max st.mined (M - 1) + (M - i) := by
  intro fuel
  induction fuel with
  | zero => intro t i st; simp [mineLoop]; omega
  | succ fuel ih =>
    intro t i st
    simp only [mineLoop]
    cases hstep : mineStep (env t) M nT iW i st with
    | stop st' r evs =>
      have := mineStep_stop_mined _ _ _ _ _ _ _ _ _ hstep
      simp only []
      omega
    | next i' st' evs =>
      have hc := mineStep_next_cases _ _ _ _ _ _ _ _ _ hstep
      have hr := ih (t + 1) i' st'
      simp only []
      rcases hc with ⟨hiM, hd⟩
      rcases hd with ⟨hi, hm⟩ | ⟨hi, hm⟩ <;> subst hi <;> omega

theorem mineStep_wood_next (e : IterEnv) (M : Nat) (nT : Bool) (i : Nat) (st : St) :
    ∀ i' st' evs, mineStep e M nT true i st = .next i' st' evs →
      i < M ∧ st'.mined ≤ st.mined + 1 := by
  intro i' st' evs h
  simp only [mineStep, not_true_eq_false, false_and, if_false] at h
  repeat' split at h
  all_goals first
    | exact StepRes.noConfusion h
    | (injection h with hA hB hC; subst hA; subst hB;
       refine ⟨by omega, ?_⟩;
       first
         | omega
         | (dsimp only; omega))

theorem mineLoop_wood_mined_le (env : Nat → IterEnv) (M : Nat) (nT : Bool) :
    ∀ (fuel t i : Nat) (st : St),
      (mineLoop env M nT true fuel t i st).1.mined ≤ st.mined + (M - i) := by
  intro fuel
  induction fuel with
  | zero => intro t i st; simp [mineLoop]
  | succ fuel ih =>
    intro t i st
    simp only [mineLoop]
    cases hstep : mineStep (env t) M nT true i st with
    | stop st' r evs =>
      have := mineStep_stop_mined _ _ _ _ _ _ _ _ _ hstep
      simp only []
      omega
    | next i' st' evs =>
      have hc := mineStep_wood_next _ _ _ _ _ _ _ _ hstep
      have hc2 := mineStep_next_cases _ _ _ _ _ _ _ _ _ hstep
      have hr := ih (t + 1) i' st'
      simp only []
      rcases hc2 with ⟨hiM, hd⟩
      rcases hd with ⟨hi, hm⟩ | ⟨hi, hm⟩ <;> subst hi <;> omega

end MCBot.Mine

-- ============================================================
-- Claim theorems
-- ============================================================

namespace MCBot

-- ──────────────────────────────── C1 ────────────────────────────────

/-- C1 counterexample: with requested count 2, one successful dig plus a
cluster dig reach the quota inside iteration 0, yet the outer loop runs
iteration 1 and digs a third block: the operation reports 3 mined with
normal completion, violating `mined ≤ requested`. -/
theorem C1_overshoot_cex :
    (Mine.mineLoop Mine.envC1 2 true false 5 0 0 Mine.st0).1.mined = 3 ∧
    (Mine.mineLoop Mine.envC1 2 true false 5 0 0 Mine.st0).2.1 = Mine.Reason.completed ∧
    ¬ ((Mine.mineLoop Mine.envC1 2 true false 5 0 0 Mine.st0).1.mined ≤ 2) := by
  exact ⟨by decide, by decide, by decide⟩

/-- C1 amended: the outer loop never checks the count after a cluster
sweep, so for ore mining the guarantee is `mined ≤ 2*requested - 1`
(each of the at most `requested` outer iterations digs at most one block,
and the cluster sweep only ever digs while `mined < requested`); for
wood/log mining the cluster sweep is disabled and `mined ≤ requested`
does hold. -/
theorem C1_mine_count_bound :
    (∀ (env : Nat → Mine.IterEnv) (M : Nat) (nT iW : Bool)
       (tool : Option String) (fuel t : Nat), 1 ≤ M →
       (Mine.mineLoop env M nT iW fuel t 0 ⟨0, ∅, tool, false⟩).1.mined ≤ 2 * M - 1) ∧
    (∀ (env : Nat → Mine.IterEnv) (M : Nat) (nT : Bool)
       (tool : Option String) (fuel t : Nat),
       (Mine.mineLoop env M nT true fuel t 0 ⟨0, ∅, tool, false⟩).1.mined ≤ M) := by
  constructor
  · intro env M nT iW tool fuel t hM
    have h := Mine.mineLoop_mined_le env M nT iW fuel t 0 ⟨0, ∅, tool, false⟩
    simp only [Nat.sub_zero] at h
    omega
  · intro env M nT tool fuel t
    have h := Mine.mineLoop_wood_mined_le env M nT fuel t 0 ⟨0, ∅, tool, false⟩
    simp only [Nat.sub_zero] at h
    omega

/-- C1 witness: the bound applied to the overshoot run itself
(3 = 2*2 - 1). -/
theorem C1_mine_count_bound_wit :
    1 ≤ 2 ∧
    (Mine.mineLoop Mine.envC1 2 true false 5 0 0 Mine.st0).1.mined ≤ 2 * 2 - 1 :=
  ⟨by decide,
   C1_mine_count_bound.1 Mine.envC1 2 true false (some "stone_pickaxe") 5 0 (by decide)⟩

-- ──────────────────────────────── C3 ────────────────────────────────

/-- C3 counterexample: a creeper at distance 7 with a well-geared player
(diamond sword, bread, full health).  The source's creeper-proximity rule
recommends flee, while the claim's table (which lacks that rule)
recommends fight. -/
theorem C3_creeper_cex :
    Threat.recommendation Threat.cexWorld = Threat.Rec.flee ∧
    Threat.claimedRec Threat.cexWorld = Threat.Rec.fight ∧
    Threat.Rec.flee ≠ Threat.Rec.fight := by
  have ht : Threat.threats Threat.cexWorld = [⟨"creeper", 7⟩] := by decide
  have hd : Threat.totalDanger Threat.cexWorld = 13/2 := by
    rw [Threat.totalDanger, ht]
    simp [Threat.dangerScaled, Threat.hostileMobs]
    norm_num
  have hp : Threat.playerPower Threat.cexWorld = 15 := by
    rw [Threat.playerPower]
    simp [Threat.cexWorld, Threat.weaponPower, Threat.weaponTiers, Threat.totalArmor,
      Threat.foodCount, Threat.foods]
    norm_num
  refine ⟨?_, ?_, by decide⟩
  · rw [Threat.recommendation, hd, hp, ht]
    norm_num
  · rw [Threat.claimedRec, hd, hp, ht]
    simp [Threat.cexWorld, Threat.weaponPower, Threat.weaponTiers, Threat.foodCount,
      Threat.foods]
    norm_num

/-- C3 amended: with at least one hostile nearby, the recommendation is
the claim's priority table extended with the rule the source also
applies: a creeper within distance 8 recommends flee (the relative order
of the three flee rules does not affect the output). -/
theorem C3_threat_table (w : Threat.World) (h : Threat.threats w ≠ []) :
    Threat.recommendation w = Threat.amendedRec w :=
  Threat.recommendation_eq_amended w h

/-- C3 witness: the table evaluated at the creeper world. -/
theorem C3_threat_table_wit :
    Threat.threats Threat.cexWorld ≠ [] ∧
    Threat.recommendation Threat.cexWorld = Threat.amendedRec Threat.cexWorld :=
  ⟨by decide, C3_threat_table Threat.cexWorld (by decide)⟩

end MCBot

namespace MCBot

-- ──────────────────────────────── C2 ────────────────────────────────

/-- C2 counterexample: an abort arriving at the first tunnel step makes
the loop return the aborted branch, whose response has `success:false` —
not the success-shaped result the claim asserts. -/
theorem C2_abort_success_cex :
    (Tunnel.tunnelLoop Tunnel.tnAbortEnv false 3 0 ⟨0, false⟩).2 = Tunnel.Reason.aborted ∧
    (Tunnel.tunnelResponse (Tunnel.tunnelLoop Tunnel.tnAbortEnv false 3 0 ⟨0, false⟩)).success = false ∧
    (Mine.mineResponse (Mine.mineLoop Mine.envAbort 1 true false 1 0 0 Mine.st0)).success = false := by
  exact ⟨by decide, by decide, by decide⟩

/-- C2 amended: in each of the five long-running operations, an abort
signal observed at a step boundary terminates the loop immediately with
the partial progress accomplished so far, but the returned result is
failure-shaped (`success:false`) carrying the partial counts — not the
success-shaped result the claim asserts. -/
theorem C2_abort_result :
    (∀ (env : Nat → Mine.IterEnv) (M : Nat) (nT iW : Bool) (fuel t i : Nat)
       (st : Mine.St), i < M → st.failed.card < Mine.MAX_FAILS →
       (st.abortFlag || (env t).abortSet) = true →
       Mine.mineLoop env M nT iW (fuel + 1) t i st =
         (⟨st.mined, st.failed, st.tool, false⟩, .aborted, []) ∧
       Mine.mineResponse (Mine.mineLoop env M nT iW (fuel + 1) t i st) =
         ⟨false, st.mined⟩) ∧
    (∀ (env : Nat → DigDown.IterEnv) (targetY : Int) (maxDepth : Nat) (hB : Bool)
       (fuel t : Nat) (st : DigDown.St),
       targetY < st.y → st.dug < maxDepth * 4 →
       (st.abortFlag || (env t).abortSet) = true →
       DigDown.digDownLoop env targetY maxDepth hB (fuel + 1) t st =
         (⟨st.dug, st.dirIndex, st.y, false⟩, .aborted) ∧
       DigDown.digDownResponse
           (DigDown.digDownLoop env targetY maxDepth hB (fuel + 1) t st) =
         ⟨false, st.dug⟩) ∧
    (∀ (env : Nat → Tunnel.IterEnv) (hB : Bool) (rem t : Nat) (st : Tunnel.St),
       (st.abortFlag || (env t).abortSet) = true →
       Tunnel.tunnelLoop env hB (rem + 1) t st = (⟨st.dug, false⟩, .aborted) ∧
       Tunnel.tunnelResponse (Tunnel.tunnelLoop env hB (rem + 1) t st) =
         ⟨false, st.dug⟩) ∧
    (∀ (env : Nat → Branch.MainEnv) (hB : Bool) (sp bl rem i dug : Nat) (flag : Bool),
       (flag || (env i).abortSet) = true →
       Branch.branchMainLoop env hB sp bl (rem + 1) i (dug, flag) =
         ((dug, false), .aborted) ∧
       Branch.branchResponse
           (Branch.branchMainLoop env hB sp bl (rem + 1) i (dug, flag)) =
         ⟨false, dug⟩) ∧
    (∀ (env : Nat → Shelter.LayerEnv) (rem y placed : Nat) (flag : Bool),
       (flag || (env y).abortSet) = true →
       Shelter.shelterWalls env (rem + 1) y (placed, flag) = ((placed, false), true)) := by
  refine ⟨?_, ?_, ?_, ?_, ?_⟩
  · intro env M nT iW fuel t i st hi hc hA
    have he := Mine.mineLoop_abort_eq env M nT iW fuel t i st hi hc hA
    exact ⟨he, by rw [he]; rfl⟩
  · intro env targetY maxDepth hB fuel t st hg1 hg2 hA
    have he := DigDown.digDownLoop_abort_eq env targetY maxDepth hB fuel t st hg1 hg2 hA
    exact ⟨he, by rw [he]; rfl⟩
  · intro env hB rem t st hA
    have he := Tunnel.tunnelLoop_abort_eq env hB rem t st hA
    exact ⟨he, by rw [he]; rfl⟩
  · intro env hB sp bl rem i dug flag hA
    have he := Branch.branchMainLoop_abort_eq env hB sp bl rem i dug flag hA
    exact ⟨he, by rw [he]; rfl⟩
  · intro env rem y placed flag hA
    exact Shelter.shelterWalls_abort_eq env rem y placed flag hA

/-- C2 witness: the five abort branches at concrete aborting runs. -/
theorem C2_abort_result_wit :
    ((0 : Nat) < 1 ∧ (Mine.st0.failed.card < Mine.MAX_FAILS) ∧
      (Mine.st0.abortFlag || (Mine.envAbort 0).abortSet) = true ∧
      Mine.mineResponse (Mine.mineLoop Mine.envAbort 1 true false 1 0 0 Mine.st0) =
        ⟨false, 0⟩) ∧
    ((Tunnel.tnAbortEnv 0).abortSet = true ∧
      Tunnel.tunnelLoop Tunnel.tnAbortEnv false 3 0 ⟨0, false⟩ =
        (⟨0, false⟩, .aborted)) := by
  refine ⟨⟨by decide, by decide, by decide, ?_⟩, ⟨by decide, ?_⟩⟩
  · exact (C2_abort_result.1 Mine.envAbort 1 true false 0 0 0 Mine.st0
      (by decide) (by decide) (by decide)).2
  · exact (C2_abort_result.2.2.1 Tunnel.tnAbortEnv false 2 0 ⟨0, false⟩ (by decide)).1

end MCBot

namespace MCBot

-- ──────────────────────────────── C4 ────────────────────────────────

/-- C4 counterexample: (i) mining stone while holding a wooden axe with
no pickaxe anywhere in the inventory passes the checks (the held-item
fallback accepts any pickaxe/axe/shovel name, not the required class);
(ii) mining iron ore with only a golden pickaxe — a tier below stone in
the source's own ordering — passes the tier checks, which only test the
`wooden_` prefix. In both cases the claim requires an error. -/
theorem C4_tool_check_cex :
    Tools.mineToolCheck "stone" ["wooden_axe"] (some "wooden_axe") =
      .proceed (some "wooden_axe") ∧
    Tools.mineToolCheck "iron_ore" ["golden_pickaxe"] none =
      .proceed (some "golden_pickaxe") ∧
    Tools.needsToolB "stone" = true ∧
    Tools.autoEquipBestTool "stone" ["wooden_axe"] = none ∧
    Tools.needsStonePlusB "iron_ore" = true := by
  exact ⟨by decide, by decide, by decide, by decide, by decide⟩

/-- C4 amended: the fail-fast behaviour is exactly this: with a
tool-mandating material, the operation fails with the no-tool error only
when no tool of the required class is in the inventory AND the held item
is not itself named like a mining tool (the fallback accepts any
pickaxe/axe/shovel); the stone-or-better check rejects exactly tools
whose name starts with `wooden_`, and the iron-or-better check exactly
those starting with `wooden_` or `stone_` (so a golden pickaxe passes);
the three error kinds are pairwise distinct, and each error returns
before the mining loop, so nothing is dug. -/
theorem C4_tool_checks :
    (∀ (bt : String) (inv : List String),
       Tools.needsToolB bt = true → Tools.autoEquipBestTool bt inv = none →
       Tools.mineToolCheck bt inv none = .noTool) ∧
    (∀ (bt : String) (inv : List String) (h : String),
       Tools.needsToolB bt = true → Tools.autoEquipBestTool bt inv = none →
       strIncludes h "pickaxe" = false → strIncludes h "axe" = false →
       strIncludes h "shovel" = false →
       Tools.mineToolCheck bt inv (some h) = .noTool) ∧
    (∀ (bt : String) (inv : List String) (held : Option String) (tl : String),
       Tools.mineEquipped bt inv held = some tl →
       Tools.needsStonePlusB bt = true → strStarts tl "wooden_" = true →
       Tools.mineToolCheck bt inv held = .needStone) ∧
    (∀ (bt : String) (inv : List String) (held : Option String) (tl : String),
       Tools.mineEquipped bt inv held = some tl →
       Tools.needsIronPlusB bt = true → strStarts tl "wooden_" = false →
       strStarts tl "stone_" = true →
       Tools.mineToolCheck bt inv held = .needIron) ∧
    (Tools.MineCheck.noTool ≠ .needStone ∧ Tools.MineCheck.noTool ≠ .needIron ∧
     Tools.MineCheck.needStone ≠ .needIron) ∧
    (∀ (bt : String) (count : Nat) (inv : List String) (held : Option String)
       (env : Nat → Mine.IterEnv) (fuel : Nat),
       (Tools.mineToolCheck bt inv held = .noTool →
         Mine.mineEndpoint bt count inv held env fuel = (.errNoTool, [])) ∧
       (Tools.mineToolCheck bt inv held = .needStone →
         Mine.mineEndpoint bt count inv held env fuel = (.errNeedStone, [])) ∧
       (Tools.mineToolCheck bt inv held = .needIron →
         Mine.mineEndpoint bt count inv held env fuel = (.errNeedIron, []))) := by
  refine ⟨Tools.mineToolCheck_noTool_eq, Tools.mineToolCheck_noTool_held_eq,
    Tools.mineToolCheck_needStone_eq, Tools.mineToolCheck_needIron_eq,
    ⟨by decide, by decide, by decide⟩, ?_⟩
  intro bt count inv held env fuel
  exact ⟨Mine.mineEndpoint_noTool_eq bt count inv held env fuel,
    Mine.mineEndpoint_needStone_eq bt count inv held env fuel,
    Mine.mineEndpoint_needIron_eq bt count inv held env fuel⟩

/-- C4 witness: the no-tool error for stone with an empty inventory and
the stone-tier error for iron ore with a wooden pickaxe. -/
theorem C4_tool_checks_wit :
    (Tools.needsToolB "stone" = true ∧
     Tools.autoEquipBestTool "stone" [] = none ∧
     Tools.mineToolCheck "stone" [] none = .noTool) ∧
    (Tools.mineEquipped "iron_ore" ["wooden_pickaxe"] none = some "wooden_pickaxe" ∧
     Tools.mineToolCheck "iron_ore" ["wooden_pickaxe"] none = .needStone) := by
  refine ⟨⟨by decide, by decide, ?_⟩, ⟨by decide, ?_⟩⟩
  · exact C4_tool_checks.1 "stone" [] (by decide) (by decide)
  · exact C4_tool_checks.2.2.1 "iron_ore" ["wooden_pickaxe"] none "wooden_pickaxe"
      (by decide) (by decide) (by decide)

-- ──────────────────────────────── C5 ────────────────────────────────

/-- C5: the blacklist invariants.  `failedPositions` is a set (the JS
`Set` keyed by the injective "x,y,z" string embeds as a `Finset`, which
cannot hold duplicates); the outer target search never selects a
blacklisted position; the cluster queue filters them out as well; the
loop stops as soon as the blacklist reaches MAX_FAILS = 10; and an
unreachable target is blacklisted without consuming the loop counter or
changing the mined count. -/
theorem C5_failed_positions :
    (∀ (e : Mine.IterEnv) (failed : Finset Mine.Pos) (p : Mine.Pos),
       Mine.selectTarget e failed = some p → p ∉ failed) ∧
    (∀ (cluster : List Mine.Pos) (failed : Finset Mine.Pos) (p : Mine.Pos),
       p ∈ Mine.clusterQueue cluster failed → p ∉ failed) ∧
    (∀ (env : Nat → Mine.IterEnv) (M : Nat) (nT iW : Bool) (fuel t i : Nat)
       (st : Mine.St), i < M → Mine.MAX_FAILS ≤ st.failed.card →
       Mine.mineLoop env M nT iW (fuel + 1) t i st = (st, .failCap, [])) ∧
    (∀ (env : Nat → Mine.IterEnv) (M : Nat) (nT iW : Bool) (fuel t i : Nat)
       (st : Mine.St) (p : Mine.Pos), i < M → st.failed.card < Mine.MAX_FAILS →
       (st.abortFlag || (env t).abortSet) = false →
       Mine.selectTarget (env t) st.failed = some p → (env t).reached = false →
       Mine.mineLoop env M nT iW (fuel + 1) t i st =
         Mine.mineLoop env M nT iW fuel (t + 1) i
           ⟨st.mined, insert p st.failed, st.tool, false⟩) := by
  refine ⟨?_, Mine.clusterQueue_not_failed, Mine.mineLoop_failCap_eq, ?_⟩
  · intro e failed p h
    exact (Mine.selectTarget_not_failed e failed p h).1
  · intro env M nT iW fuel t i st p hi hc hA hsel hr
    exact Mine.mineLoop_unreachable_eq env M nT iW fuel t i st p hi hc hA hsel hr

/-- C5 witness: the target search on the concrete overshoot environment,
and the cap stop on a state with ten blacklisted positions. -/
theorem C5_failed_positions_wit :
    (Mine.selectTarget Mine.iterA ∅ = some ⟨1, 0, 0⟩ ∧ (⟨1, 0, 0⟩ : Mine.Pos) ∉ (∅ : Finset Mine.Pos)) ∧
    ((0 : Nat) < 1 ∧ Mine.MAX_FAILS ≤ Mine.stCap.failed.card ∧
     Mine.mineLoop Mine.envC1 1 true false 3 0 0 Mine.stCap =
       (Mine.stCap, .failCap, [])) := by
  refine ⟨⟨by decide, ?_⟩, by decide, by decide, ?_⟩
  · exact C5_failed_positions.1 Mine.iterA ∅ ⟨1, 0, 0⟩ (by decide)
  · exact C5_failed_positions.2.2.1 Mine.envC1 1 true false 2 0 0 Mine.stCap
      (by decide) (by decide)

end MCBot

namespace MCBot

-- ──────────────────────────────── C6 ────────────────────────────────

/-- C6: tool re-verification.  (1)/(2): in every trace of the mining loop
each dig of a target or cluster block is immediately preceded by an
`ensureToolHeld` call (positionally: an event at index n+1 that is a dig
has the ensure at index n). (3): when the selected tool is still in the
inventory and the equip succeeds, `ensureToolHeld` leaves the held item
equal to the selected tool — a held-item swap is recovered within one
step. (4): when the tool is gone with no replacement and the material
requires one, the loop stops with `toolBroke`, reporting the partial
mined count. -/
theorem C6_tool_reverify :
    (∀ (env : Nat → Mine.IterEnv) (M : Nat) (nT iW : Bool) (fuel t i : Nat)
       (st : Mine.St),
       Mine.guarded (Mine.mineLoop env M nT iW fuel t i st).2.2 = true) ∧
    (∀ (env : Nat → Mine.IterEnv) (M : Nat) (nT iW : Bool) (fuel t i : Nat)
       (st : Mine.St) (n : Nat),
       (Mine.mineLoop env M nT iW fuel t i st).2.2.get? (n + 1) = some .dig →
       (Mine.mineLoop env M nT iW fuel t i st).2.2.get? n = some .ensure) ∧
    (∀ (tl : String) (held rt : Option String),
       (Mine.ensureToolHeldRun (some tl) held true rt true).2 = some tl ∧
       (Mine.ensureToolHeldRun (some tl) held true rt true).1 = some tl) ∧
    (∀ (env : Nat → Mine.IterEnv) (M : Nat) (iW : Bool) (fuel t i : Nat)
       (st : Mine.St) (p : Mine.Pos), i < M → st.failed.card < Mine.MAX_FAILS →
       (st.abortFlag || (env t).abortSet) = false →
       Mine.selectTarget (env t) st.failed = some p → (env t).reached = true →
       (Mine.ensureToolHeldRun st.tool (env t).held (env t).toolInInv
          (env t).retool (env t).equipOk).1 = none →
       Mine.mineLoop env M true iW (fuel + 1) t i st =
         (⟨st.mined, st.failed, none, false⟩, .toolBroke, [.ensure])) := by
  refine ⟨?_, ?_, ?_, ?_⟩
  · intro env M nT iW fuel t i st
    exact Mine.chunks_guardedFrom (Mine.mineLoop_chunks env M nT iW fuel t i st) false
  · intro env M nT iW fuel t i st n hdig
    have hg : Mine.guardedFrom false (Mine.mineLoop env M nT iW fuel t i st).2.2 = true :=
      Mine.chunks_guardedFrom (Mine.mineLoop_chunks env M nT iW fuel t i st) false
    exact (Mine.guardedFrom_get _ false hg).1 n hdig
  · intro tl held rt
    by_cases h : held = some tl <;> simp [Mine.ensureToolHeldRun, h]
  · intro env M iW fuel t i st p hi hc hA hsel hr hens
    exact Mine.mineLoop_toolBroke_eq env M true iW fuel t i st p hi hc hA hsel hr hens rfl

/-- C6 witness: the positional dig/ensure fact on the overshoot trace,
the held-item recovery at a swapped held item, and the broke-tool stop at
a concrete environment whose inventory lost the pickaxe. -/
theorem C6_tool_reverify_wit :
    ((Mine.mineLoop Mine.envC1 2 true false 5 0 0 Mine.st0).2.2.get? 1 = some .dig ∧
     (Mine.mineLoop Mine.envC1 2 true false 5 0 0 Mine.st0).2.2.get? 0 = some .ensure) ∧
    (Mine.ensureToolHeldRun (some "stone_pickaxe") (some "dirt") true none true).2 =
      some "stone_pickaxe" ∧
    ((0 : Nat) < 1 ∧
     (Mine.st0.abortFlag || (Mine.envBroke 0).abortSet) = false ∧
     Mine.selectTarget (Mine.envBroke 0) Mine.st0.failed = some ⟨1, 0, 0⟩ ∧
     (Mine.ensureToolHeldRun Mine.st0.tool (Mine.envBroke 0).held
        (Mine.envBroke 0).toolInInv (Mine.envBroke 0).retool
        (Mine.envBroke 0).equipOk).1 = none ∧
     Mine.mineLoop Mine.envBroke 1 true false 4 0 0 Mine.st0 =
       (⟨0, ∅, none, false⟩, .toolBroke, [.ensure])) := by
  refine ⟨⟨by decide, ?_⟩, ?_, by decide, by decide, by decide, by decide, ?_⟩
  · exact C6_tool_reverify.2.1 Mine.envC1 2 true false 5 0 0 Mine.st0 0 (by decide)
  · exact (C6_tool_reverify.2.2.1 "stone_pickaxe" (some "dirt") none).1
  · exact C6_tool_reverify.2.2.2 Mine.envBroke 1 false 3 0 0 Mine.st0 ⟨1, 0, 0⟩
      (by decide) (by decide) (by decide) (by decide) (by decide) (by decide)

end MCBot

namespace MCBot

-- ──────────────────────────────── C7 ────────────────────────────────

/-- C7: the lava hard rule.  When neutralization is unavailable (no
water bucket: `tryWaterBucketOnLava` is false whatever the activation
outcome) or fails (bucket present, the attempt returns false), a lava
scan hit makes: the staircase step dig nothing and rotate to the next
direction; the tunnel step stop the whole operation (success-shaped,
partial count, nothing of that step dug); a branch-mine `digStep` refuse
to dig and the main loop terminate on it. -/
theorem C7_lava_hard_rule :
    (∀ (activateOk : Bool), Lava.tryWaterBucketOnLava false activateOk = false) ∧
    (∀ (hB : Bool) (e : DigDown.IterEnv),
       ((e.scan1.isEmpty = false ∧ Lava.tryWaterBucketOnLava hB e.nOk1 = false) ∨
        (e.scan2.isEmpty = false ∧ Lava.tryWaterBucketOnLava hB e.nOk2 = false) ∨
        (e.scan3.isEmpty = false ∧ Lava.tryWaterBucketOnLava hB e.nOk3 = false)) →
       DigDown.lavaAhead hB e = true) ∧
    (∀ (env : Nat → DigDown.IterEnv) (targetY : Int) (maxDepth : Nat) (hB : Bool)
       (fuel t : Nat) (st : DigDown.St), targetY < st.y → st.dug < maxDepth * 4 →
       (st.abortFlag || (env t).abortSet) = false →
       DigDown.lavaAhead hB (env t) = true →
       DigDown.digDownLoop env targetY maxDepth hB (fuel + 1) t st =
         DigDown.digDownLoop env targetY maxDepth hB fuel (t + 1)
           ⟨st.dug, st.dirIndex + 1, st.y, false⟩) ∧
    (∀ (env : Nat → Tunnel.IterEnv) (hB : Bool) (rem t : Nat) (st : Tunnel.St),
       (st.abortFlag || (env t).abortSet) = false →
       (env t).scan.isEmpty = false →
       Lava.tryWaterBucketOnLava hB (env t).nOk = false →
       Tunnel.tunnelLoop env hB (rem + 1) t st = (⟨st.dug, false⟩, .lavaScanStop) ∧
       Tunnel.tunnelResponse (Tunnel.tunnelLoop env hB (rem + 1) t st) =
         ⟨true, st.dug⟩) ∧
    (∀ (hB : Bool) (e : Branch.StepEnv) (dug : Nat), e.scan.isEmpty = false →
       Lava.tryWaterBucketOnLava hB e.nOk = false →
       Branch.digStepRun hB e dug = none) ∧
    (∀ (env : Nat → Branch.MainEnv) (hB : Bool) (sp bl rem i dug : Nat) (flag : Bool),
       (flag || (env i).abortSet) = false →
       (env i).main.scan.isEmpty = false →
       Lava.tryWaterBucketOnLava hB (env i).main.nOk = false →
       Branch.branchMainLoop env hB sp bl (rem + 1) i (dug, flag) =
         ((dug, false), .lavaStop)) := by
  refine ⟨?_, DigDown.lavaAhead_of_fail, ?_, ?_, ?_, ?_⟩
  · intro activateOk; rfl
  · intro env targetY maxDepth hB fuel t st hg1 hg2 hA hlava
    exact DigDown.digDownLoop_lava_eq env targetY maxDepth hB fuel t st hg1 hg2 hA hlava
  · intro env hB rem t st hA hscan hfail
    have he := Tunnel.tunnelLoop_lavaScan_eq env hB rem t st hA hscan hfail
    exact ⟨he, by rw [he]; rfl⟩
  · intro hB e dug hscan hfail
    exact Branch.digStepRun_lavaFail_eq hB e dug hscan hfail
  · intro env hB sp bl rem i dug flag hA hscan hfail
    exact Branch.branchMainLoop_lava_eq env hB sp bl rem i dug flag hA
      (Branch.digStepRun_lavaFail_eq hB _ dug hscan hfail)

/-- C7 witness: concrete lava-blocked steps of all three directional
operations, each in both hazard modes: neutralization unavailable (no
water bucket) and neutralization failing (bucket present, activation
returns false). -/
theorem C7_lava_hard_rule_wit :
    ((-20 : Int) < DigDown.ddSt.y ∧ DigDown.ddSt.dug < 10 * 4 ∧
     (DigDown.ddSt.abortFlag || (DigDown.ddLavaEnv 0).abortSet) = false ∧
     DigDown.lavaAhead false (DigDown.ddLavaEnv 0) = true ∧
     DigDown.digDownLoop DigDown.ddLavaEnv (-20) 10 false 3 0 DigDown.ddSt =
       DigDown.digDownLoop DigDown.ddLavaEnv (-20) 10 false 2 1 ⟨0, 1, 12, false⟩) ∧
    (DigDown.lavaAhead true (DigDown.ddLavaFailEnv 0) = true ∧
     DigDown.digDownLoop DigDown.ddLavaFailEnv (-20) 10 true 3 0 DigDown.ddSt =
       DigDown.digDownLoop DigDown.ddLavaFailEnv (-20) 10 true 2 1 ⟨0, 1, 12, false⟩) ∧
    ((Tunnel.tnLavaEnv 0).scan.isEmpty = false ∧
     Tunnel.tunnelLoop Tunnel.tnLavaEnv false 4 0 ⟨7, false⟩ =
       (⟨7, false⟩, .lavaScanStop)) ∧
    (Lava.tryWaterBucketOnLava true (Tunnel.tnLavaFailEnv 0).nOk = false ∧
     Tunnel.tunnelLoop Tunnel.tnLavaFailEnv true 4 0 ⟨7, false⟩ =
       (⟨7, false⟩, .lavaScanStop)) ∧
    (Branch.digStepRun false Branch.brLavaStep 5 = none ∧
     Branch.branchMainLoop Branch.brLavaEnv false 3 5 6 0 (5, false) =
       ((5, false), .lavaStop)) ∧
    (Branch.digStepRun true Branch.brLavaFailStep 5 = none ∧
     Branch.branchMainLoop Branch.brLavaFailEnv true 3 5 6 0 (5, false) =
       ((5, false), .lavaStop)) := by
  refine ⟨⟨by decide, by decide, by decide, ?_, ?_⟩, ⟨?_, ?_⟩,
          ⟨by decide, ?_⟩, ⟨by decide, ?_⟩, ⟨?_, ?_⟩, ⟨?_, ?_⟩⟩
  · exact C7_lava_hard_rule.2.1 false (DigDown.ddLavaEnv 0)
      (Or.inl ⟨by decide, by decide⟩)
  · exact C7_lava_hard_rule.2.2.1 DigDown.ddLavaEnv (-20) 10 false 2 0 DigDown.ddSt
      (by decide) (by decide) (by decide) (by decide)
  · exact C7_lava_hard_rule.2.1 true (DigDown.ddLavaFailEnv 0)
      (Or.inl ⟨by decide, by decide⟩)
  · exact C7_lava_hard_rule.2.2.1 DigDown.ddLavaFailEnv (-20) 10 true 2 0 DigDown.ddSt
      (by decide) (by decide) (by decide) (by decide)
  · exact (C7_lava_hard_rule.2.2.2.1 Tunnel.tnLavaEnv false 3 0 ⟨7, false⟩
      (by decide) (by decide) (by decide)).1
  · exact (C7_lava_hard_rule.2.2.2.1 Tunnel.tnLavaFailEnv true 3 0 ⟨7, false⟩
      (by decide) (by decide) (by decide)).1
  · exact C7_lava_hard_rule.2.2.2.2.1 false Branch.brLavaStep 5 (by decide) (by decide)
  · exact C7_lava_hard_rule.2.2.2.2.2 Branch.brLavaEnv false 3 5 5 0 5 false
      (by decide) (by decide) (by decide)
  · exact C7_lava_hard_rule.2.2.2.2.1 true Branch.brLavaFailStep 5 (by decide) (by decide)
  · exact C7_lava_hard_rule.2.2.2.2.2 Branch.brLavaFailEnv true 3 5 5 0 5 false
      (by decide) (by decide) (by decide)

end MCBot

namespace MCBot

-- ──────────────────────────────── C8 ────────────────────────────────

/-- C8: combat-state timing.  A health decrease sets `isUnderAttack` and
stamps the hit time; a later event (or a /combat_status read) with no
further damage clears `isUnderAttack`, `combatStartTime` and
`lastAttacker` exactly when more than 5000 ms have passed since the last
hit, and leaves the state untouched at or below 5000 ms; the
recent-attacks history never exceeds 10 entries on any event stream. -/
theorem C8_combat_timing :
    (∀ (now : Nat) (p h : ℚ) (att : Option String) (cs : Combat.CombatState),
       h < p →
       (Combat.healthEvent now p h att cs).isUnderAttack = true ∧
       (Combat.healthEvent now p h att cs).lastHitTime = now) ∧
    (∀ (now : Nat) (p h : ℚ) (att : Option String) (cs : Combat.CombatState),
       p ≤ h → cs.isUnderAttack = true → 5000 < now - cs.lastHitTime →
       Combat.healthEvent now p h att cs =
         { cs with isUnderAttack := false, combatStartTime := 0,
                   lastAttacker := none }) ∧
    (∀ (now : Nat) (p h : ℚ) (att : Option String) (cs : Combat.CombatState),
       p ≤ h → now - cs.lastHitTime ≤ 5000 →
       Combat.healthEvent now p h att cs = cs) ∧
    (∀ (now : Nat) (cs : Combat.CombatState),
       cs.isUnderAttack = true → 5000 < now - cs.lastHitTime →
       Combat.combatStatusRefresh now cs =
         { cs with isUnderAttack := false, combatStartTime := 0,
                   lastAttacker := none }) ∧
    (∀ (now : Nat) (cs : Combat.CombatState), now - cs.lastHitTime ≤ 5000 →
       Combat.combatStatusRefresh now cs = cs) ∧
    (∀ (evs : List (Nat × ℚ × Option String)),
       ((Combat.runEvents evs (Combat.initState, 20)).1).recentAttacks.length ≤ 10) := by
  refine ⟨Combat.healthEvent_damage_sets, Combat.healthEvent_clears,
    Combat.healthEvent_keeps, Combat.combatStatusRefresh_clears,
    Combat.combatStatusRefresh_keeps, ?_⟩
  intro evs
  exact Combat.runEvents_ra_le evs Combat.initState 20 (by decide)

/-- C8 witness: a hit at t=1000 sets the flag; a quiet event at t=6000
(5000 ms later) leaves it set; a quiet event at t=6001 clears it. -/
theorem C8_combat_timing_wit :
    ((15 : ℚ) < 20 ∧
     (Combat.healthEvent 1000 20 15 (some "zombie") Combat.initState).isUnderAttack = true) ∧
    ((15 : ℚ) ≤ 15 ∧ 6000 - 1000 ≤ 5000 ∧
     Combat.healthEvent 6000 15 15 none
         ⟨true, 1000, some "zombie", 20, 5, [], 1000⟩ =
       ⟨true, 1000, some "zombie", 20, 5, [], 1000⟩) ∧
    ((15 : ℚ) ≤ 15 ∧ (⟨true, 1000, some "zombie", 20, 5, [], 1000⟩ :
        Combat.CombatState).isUnderAttack = true ∧ 5000 < 6001 - 1000 ∧
     Combat.healthEvent 6001 15 15 none
         ⟨true, 1000, some "zombie", 20, 5, [], 1000⟩ =
       ⟨false, 1000, none, 20, 5, [], 0⟩) := by
  refine ⟨⟨by decide, ?_⟩, ⟨by decide, by decide, ?_⟩, ⟨by decide, by decide, by decide, ?_⟩⟩
  · exact (C8_combat_timing.1 1000 20 15 (some "zombie") Combat.initState (by decide)).1
  · exact C8_combat_timing.2.2.1 6000 15 15 none
      ⟨true, 1000, some "zombie", 20, 5, [], 1000⟩ (by decide) (by decide)
  · exact C8_combat_timing.2.1 6001 15 15 none
      ⟨true, 1000, some "zombie", 20, 5, [], 1000⟩ (by decide) (by decide) (by decide)

-- ──────────────────────────────── C9 ────────────────────────────────

/-- C9: the abort call.  It only sets the shared flag and resets the
navigation goal (combat state and chat log — the rest of the server state
— are untouched), answering success; it is idempotent; the `/action`
middleware defensively clears a stale flag while touching nothing else;
and whenever the mining loop ends because it observed the abort, the flag
has been cleared by that observation. -/
theorem C9_abort_call :
    (∀ (s : Server.ServerState),
       (Server.abortEndpoint s).1.abortFlag = true ∧
       (Server.abortEndpoint s).1.navGoal = none ∧
       (Server.abortEndpoint s).1.combat = s.combat ∧
       (Server.abortEndpoint s).1.chatLog = s.chatLog ∧
       (Server.abortEndpoint s).2 = true) ∧
    (∀ (s : Server.ServerState),
       Server.abortEndpoint (Server.abortEndpoint s).1 = Server.abortEndpoint s) ∧
    (∀ (s : Server.ServerState),
       (Server.actionGate s).abortFlag = false ∧
       (Server.actionGate s).navGoal = s.navGoal ∧
       (Server.actionGate s).combat = s.combat ∧
       (Server.actionGate s).chatLog = s.chatLog) ∧
    (∀ (env : Nat → Mine.IterEnv) (M : Nat) (nT iW : Bool) (fuel t i : Nat)
       (st : Mine.St),
       (Mine.mineLoop env M nT iW fuel t i st).2.1 = .aborted →
       (Mine.mineLoop env M nT iW fuel t i st).1.abortFlag = false) := by
  refine ⟨?_, ?_, ?_, Mine.mineLoop_aborted_flag⟩
  · intro s; exact ⟨rfl, rfl, rfl, rfl, rfl⟩
  · intro s; rfl
  · intro s
    refine ⟨?_, ?_, ?_, ?_⟩ <;>
      (simp only [Server.actionGate]; split_ifs with h <;> simp_all)

/-- C9 witness: a concrete aborting mine run whose returned state carries
a cleared flag. -/
theorem C9_abort_call_wit :
    (Mine.mineLoop Mine.envAbort 1 true false 1 0 0 Mine.st0).2.1 = .aborted ∧
    (Mine.mineLoop Mine.envAbort 1 true false 1 0 0 Mine.st0).1.abortFlag = false :=
  ⟨by decide,
   C9_abort_call.2.2.2 Mine.envAbort 1 true false 1 0 0 Mine.st0 (by decide)⟩

-- ──────────────────────────────── C10 ───────────────────────────────

/-- C10: when the agent is not in water, escape_water answers
`success:true` immediately and issues no world-mutating primitive at all
(empty primitive trace — the world is untouched), whatever the phase
outcomes would have been. -/
theorem C10_escape_water_noop (e : Escape.Env) :
    Escape.escapeWater false e = (true, []) := rfl

end MCBot
